import Mathlib

/-!
Verification of the `tspy` Tailscale API client (Python) against its
specification, via a shallow embedding of `src/tspy/client.py`,
`src/tspy/models.py` and `src/tspy/exceptions.py` in Lean 4.

Modelling conventions:
* JSON documents are the inductive `Json`; a decoded Python value coming back
  from the transport is `Option Json`, where `none` is the Python `None`
  (both the "no content" sentinel of `_request` and a decoded JSON `null`,
  which `response.json()` also returns as `None`).
* Machinery external to the repo (`requests`, `pydantic`) is modelled by its
  documented behaviour at the points the repo uses it:
  `Response.raise_for_status` raises exactly for statuses 400–599;
  `Response.json()` fails on a body that is not valid JSON, and since
  `requests ≥ 2.27` that failure is a `RequestException`;
  pydantic populates a field from its declared alias (or its name when no
  alias is declared), ignores extra keys, uses the declared default for an
  absent optional field, and raises a `ValidationError` for a missing
  required field or a value of the wrong shape.  Pydantic's lax numeric
  coercions (e.g. epoch numbers to `datetime`, `"true"` to `bool`) are not
  modelled; no claim below depends on them.
* Exceptions are modelled by `Except`: `TspyAPIError` is the typed API error
  of `exceptions.py`, and `PyError` adds the untyped Python errors that can
  escape a client method (`AttributeError` from `None.get`, `TypeError`
  from iterating a non-list, pydantic's `ValidationError`).
* Each client method performs exactly one straight-line call to `_request`;
  methods therefore return the result together with the list of issued
  requests, obtained from an `oracle : Request → NetResult` standing for the
  network.
-/

/-- A JSON document. -/
inductive Json where
  | null : Json
  | bool (b : Bool) : Json
  | num (n : Int) : Json
  | str (s : String) : Json
  | arr (xs : List Json) : Json
  | obj (fields : List (String × Json)) : Json

/-- `exceptions.py`: `TspyAPIError(message, status_code=None, response_data=None)`.
The human-readable message is not modelled. -/
structure TspyAPIError where
  status_code : Option Nat
  response_data : Option Json

/-- The errors a client method can raise: the typed API error, plus the
Python-level errors reachable in `client.py` (`AttributeError` from
`None.get(...)`, `TypeError` from iterating a non-list /
`Device(**non_dict)`, pydantic's `ValidationError`). -/
inductive PyError where
  | api (e : TspyAPIError) : PyError
  | attributeError : PyError
  | typeError : PyError
  | validationError (field : String) : PyError

/-- The information `_request` inspects about an HTTP response:
its status, whether the body is nonempty (`response.content` truthiness),
and `jsonBody = some v` iff the body text parses as JSON `v`
(`none` when `response.json()` would fail, e.g. an empty or non-JSON body). -/
structure HttpResponse where
  status : Nat
  hasBody : Bool
  jsonBody : Option Json

/-- Outcome of `self.session.request(...)`: either a response, or a
transport-level `RequestException` (DNS, connection refusal, timeout). -/
inductive NetResult where
  | response (resp : HttpResponse) : NetResult
  | failure : NetResult

/-- `requests.Response.raise_for_status` raises `HTTPError` exactly for
4xx (client error) and 5xx (server error) statuses. -/
def raiseForStatusFails (status : Nat) : Bool :=
  (400 ≤ status && status < 500) || (500 ≤ status && status < 600)

/-- A decoded JSON value as a Python value: JSON `null` decodes to Python
`None`, everything else to itself. -/
def jsonToPy (j : Json) : Option Json :=
  match j with
  | .null => none
  | j => some j

/-- The `try`/`except` body of `TailscaleClient._request`, as a function of
the network outcome: `raise_for_status`, then
`return response.json() if response.content else None`;
an `HTTPError` becomes a `TspyAPIError` carrying the status and the
best-effort JSON decode of the error body (`None` when that decode fails);
any other `RequestException` — including the `JSONDecodeError` a 2xx
unparseable body raises — becomes a `TspyAPIError` with no status. -/
def handleNetResult (r : NetResult) : Except TspyAPIError (Option Json) :=
  match r with
  | .failure => .error { status_code := none, response_data := none }
  | .response resp =>
    if raiseForStatusFails resp.status then
      .error { status_code := some resp.status,
               response_data := resp.jsonBody.bind jsonToPy }
    else if resp.hasBody then
      match resp.jsonBody with
      | some j => .ok (jsonToPy j)
      | none => .error { status_code := none, response_data := none }
    else .ok none

/-- One HTTP request as issued by `_request`: method, full URL, the query
parameters actually attached (`kwargs['params'] = params` only happens when
`params` is truthy), and the JSON body (`json=...`). -/
structure Request where
  method : String
  url : String
  params : Option (List (String × String))
  body : Option Json

/-- `client.py`: the configuration state of `TailscaleClient.__init__`
(the `requests.Session` itself is represented by the oracle). -/
structure TailscaleClient where
  api_key : String
  tailnet : String
  base_url : String

/-- `base_url.rstrip("/")`. -/
def rstripSlash (s : String) : String :=
  s.dropRightWhile (fun c => c = '/')

/-- `TailscaleClient.__init__` with all three arguments explicit. -/
def TailscaleClient.make3 (api_key tailnet base_url : String) : TailscaleClient :=
  { api_key := api_key, tailnet := tailnet, base_url := rstripSlash base_url }

/-- `TailscaleClient.__init__` with the defaults
`tailnet="-"`, `base_url="https://api.tailscale.com/api/v2"`. -/
def TailscaleClient.make (api_key : String) : TailscaleClient :=
  TailscaleClient.make3 api_key "-" "https://api.tailscale.com/api/v2"

/-- `TailscaleClient._request`: builds the URL, attaches `params` only when
truthy (a `None` or empty mapping is dropped), performs the one HTTP
exchange through the oracle, and translates the outcome.  Returns the result
together with the (length-one) list of issued requests. -/
def TailscaleClient.req (c : TailscaleClient) (oracle : Request → NetResult)
    (method endpoint : String) (params : Option (List (String × String)))
    (body : Option Json) : Except TspyAPIError (Option Json) × List Request :=
  let r : Request :=
    { method := method
      url := c.base_url ++ endpoint
      params :=
        match params with
        | some l => if l.isEmpty then none else some l
        | none => none
      body := body }
  (handleNetResult (oracle r), [r])

/-- Lift a transport result into the wider method-level error type. -/
def liftAPI (x : Except TspyAPIError (Option Json)) : Except PyError (Option Json) :=
  match x with
  | .ok v => .ok v
  | .error e => .error (.api e)

/-- `_request` as used by the resource-mapper methods (errors lifted). -/
def TailscaleClient.reqPy (c : TailscaleClient) (oracle : Request → NetResult)
    (method endpoint : String) (params : Option (List (String × String)))
    (body : Option Json) : Except PyError (Option Json) × List Request :=
  let (res, trace) := c.req oracle method endpoint params body
  (liftAPI res, trace)

/-- Python truthiness of a decoded value (`if data:` / `if params:`). -/
def pyTruthy (v : Option Json) : Bool :=
  match v with
  | none => false
  | some .null => false
  | some (.bool b) => b
  | some (.num n) => n != 0
  | some (.str s) => !s.isEmpty
  | some (.arr xs) => !xs.isEmpty
  | some (.obj fs) => !fs.isEmpty

/-- Python `data.get(k, dflt)`: an `AttributeError` unless `data` is a
mapping; a stored JSON `null` comes back as Python `None`, a missing key as
the default. -/
def pyGet (v : Option Json) (k : String) (dflt : Option Json) :
    Except PyError (Option Json) :=
  match v with
  | some (.obj fs) =>
    match fs.lookup k with
    | some x => .ok (jsonToPy x)
    | none => .ok dflt
  | _ => .error .attributeError

/-- Iterating a decoded value in a list comprehension that unpacks each
element with `Model(**element)`: anything but a JSON array fails (either the
iteration itself or the `**` unpacking raises a `TypeError`). -/
def pyIterList (v : Option Json) : Except PyError (List Json) :=
  match v with
  | some (.arr xs) => .ok xs
  | _ => .error .typeError

/-- Truthiness of a `str`-typed optional argument (`if expiry:` …). -/
def strTruthy (v : Option String) : Bool :=
  match v with
  | none => false
  | some s => !s.isEmpty

/-- Truthiness of a `List[str]`-typed optional argument (`if subscriptions:`). -/
def strListTruthy (v : Option (List String)) : Bool :=
  match v with
  | none => false
  | some l => !l.isEmpty

/-! ## Models (`models.py`)

Pydantic field decoding is modelled per declared field type.  Each decoder
takes the looked-up wire value (`none` = key absent) and either produces the
typed value or a `ValidationError`.  `datetime` values are modelled as the
RFC 3339 strings they are parsed from, restricted by a shape check: what the
claims need is only that the empty string is not a valid datetime. -/

/-- A minimal shape check standing for pydantic's ISO-8601 datetime parse:
at least `YYYY-MM-DD` long, starting with four digits.  (The exact grammar is
irrelevant to the claims; only `isDatetimeStr "" = false` matters.) -/
def isDatetimeStr (s : String) : Bool :=
  10 ≤ s.length && (s.toList.take 4).all Char.isDigit

/-- A parsed `datetime`, carried as its wire string. -/
def DateTime := { s : String // isDatetimeStr s = true }

/-- `models.py` `empty_str_to_none` (`@field_validator(..., mode='before')`):
an empty-string wire value becomes `None` before parsing; anything else is
passed through. -/
def emptyStrToNone (v : Json) : Json :=
  match v with
  | .str s => if s.isEmpty then .null else .str s
  | v => v

/-- Element-wise decoding of a list (a Python list comprehension that fails
on the first bad element). -/
def mapExcept {α β : Type} (f : α → Except PyError β) : List α → Except PyError (List β)
  | [] => .ok []
  | x :: xs => do
    let b ← f x
    let bs ← mapExcept f xs
    return b :: bs

/-- Decode an `Optional[str]` field value. -/
def optStrV (v : Option Json) (k : String) : Except PyError (Option String) :=
  match v with
  | none => .ok none
  | some .null => .ok none
  | some (.str s) => .ok (some s)
  | some _ => .error (.validationError k)

/-- Decode a required `str` field value. -/
def reqStrV (v : Option Json) (k : String) : Except PyError String :=
  match v with
  | some (.str s) => .ok s
  | _ => .error (.validationError k)

/-- Decode a required `bool` field value. -/
def reqBoolV (v : Option Json) (k : String) : Except PyError Bool :=
  match v with
  | some (.bool b) => .ok b
  | _ => .error (.validationError k)

/-- Decode an `Optional[bool]` field value. -/
def optBoolV (v : Option Json) (k : String) : Except PyError (Option Bool) :=
  match v with
  | none => .ok none
  | some .null => .ok none
  | some (.bool b) => .ok (some b)
  | some _ => .error (.validationError k)

/-- Decode an `Optional[int]` field value. -/
def optIntV (v : Option Json) (k : String) : Except PyError (Option Int) :=
  match v with
  | none => .ok none
  | some .null => .ok none
  | some (.num n) => .ok (some n)
  | some _ => .error (.validationError k)

/-- Decode one element of a `List[str]`. -/
def strElem (k : String) (j : Json) : Except PyError String :=
  match j with
  | .str s => .ok s
  | _ => .error (.validationError k)

/-- Decode a required `List[str]` field value. -/
def reqStrListV (v : Option Json) (k : String) : Except PyError (List String) :=
  match v with
  | some (.arr xs) => mapExcept (strElem k) xs
  | _ => .error (.validationError k)

/-- Decode an `Optional[List[str]]` field value (default `None`). -/
def optStrListV (v : Option Json) (k : String) :
    Except PyError (Option (List String)) :=
  match v with
  | none => .ok none
  | some .null => .ok none
  | some (.arr xs) => (mapExcept (strElem k) xs).map some
  | some _ => .error (.validationError k)

/-- Decode an `Optional[List[str]]` field with `default_factory=list`:
an absent key yields `[]`, an explicit `null` yields `None`. -/
def optStrListDV (v : Option Json) (k : String) :
    Except PyError (Option (List String)) :=
  match v with
  | none => .ok (some [])
  | some .null => .ok none
  | some (.arr xs) => (mapExcept (strElem k) xs).map some
  | some _ => .error (.validationError k)

/-- Decode one element of a `List[int]`. -/
def intElem (k : String) (j : Json) : Except PyError Int :=
  match j with
  | .num n => .ok n
  | _ => .error (.validationError k)

/-- Decode an `Optional[List[int]]` field value. -/
def optIntListV (v : Option Json) (k : String) :
    Except PyError (Option (List Int)) :=
  match v with
  | none => .ok none
  | some .null => .ok none
  | some (.arr xs) => (mapExcept (intElem k) xs).map some
  | some _ => .error (.validationError k)

/-- Decode a required `Dict[str, Any]` field value. -/
def reqObjV (v : Option Json) (k : String) :
    Except PyError (List (String × Json)) :=
  match v with
  | some (.obj fs) => .ok fs
  | _ => .error (.validationError k)

/-- Decode an `Optional[Dict[str, Any]]` field value. -/
def optObjV (v : Option Json) (k : String) :
    Except PyError (Option (List (String × Json))) :=
  match v with
  | none => .ok none
  | some .null => .ok none
  | some (.obj fs) => .ok (some fs)
  | some _ => .error (.validationError k)

/-- Decode an `Optional[datetime]` field value (no validator attached). -/
def optDateTimeV (v : Option Json) (k : String) :
    Except PyError (Option DateTime) :=
  match v with
  | none => .ok none
  | some .null => .ok none
  | some (.str s) =>
    if h : isDatetimeStr s then .ok (some ⟨s, h⟩)
    else .error (.validationError k)
  | some _ => .error (.validationError k)

/-- Decode a required `datetime` field value. -/
def reqDateTimeV (v : Option Json) (k : String) : Except PyError DateTime :=
  match v with
  | some (.str s) =>
    if h : isDatetimeStr s then .ok ⟨s, h⟩
    else .error (.validationError k)
  | _ => .error (.validationError k)

/-- Decode an `Optional[datetime]` field guarded by `empty_str_to_none`:
the `mode='before'` validator rewrites `''` to `None` first. -/
def optDateTimeEmptyV (v : Option Json) (k : String) :
    Except PyError (Option DateTime) :=
  match v with
  | none => .ok none
  | some w => optDateTimeV (some (emptyStrToNone w)) k

/-! Encoders: `model_dump(by_alias=True, mode='json')` per field type. -/

/-- Encode an `Optional[str]` field. -/
def encOptStr (o : Option String) : Json :=
  match o with
  | none => .null
  | some s => .str s

/-- Encode an `Optional[bool]` field. -/
def encOptBool (o : Option Bool) : Json :=
  match o with
  | none => .null
  | some b => .bool b

/-- Encode an `Optional[int]` field. -/
def encOptInt (o : Option Int) : Json :=
  match o with
  | none => .null
  | some n => .num n

/-- Encode a `List[str]` field. -/
def encStrList (l : List String) : Json :=
  .arr (l.map .str)

/-- Encode an `Optional[List[str]]` field. -/
def encOptStrList (o : Option (List String)) : Json :=
  match o with
  | none => .null
  | some l => encStrList l

/-- Encode an `Optional[List[int]]` field. -/
def encOptIntList (o : Option (List Int)) : Json :=
  match o with
  | none => .null
  | some l => .arr (l.map .num)

/-- Encode an `Optional[Dict[str, Any]]` field. -/
def encOptObj (o : Option (List (String × Json))) : Json :=
  match o with
  | none => .null
  | some fs => .obj fs

/-- Encode a `datetime` field. -/
def encDateTime (dt : DateTime) : Json :=
  .str dt.val

/-- Encode an `Optional[datetime]` field. -/
def encOptDateTime (o : Option DateTime) : Json :=
  match o with
  | none => .null
  | some dt => encDateTime dt

/-- `models.py` `Device`. -/
structure Device where
  id : String
  addresses : List String
  authorized : Bool
  blocked_ports : Option (List Int)
  blocks_incoming_connections : Option Bool
  client_connectivity : Option (List (String × Json))
  client_version : Option String
  created : Option DateTime
  expires : Option DateTime
  hostname : String
  is_external : Option Bool
  key_expiry_disabled : Option Bool
  last_seen : Option DateTime
  machine_key : Option String
  name : String
  node_id : Option String
  node_key : Option String
  os : String
  tags : Option (List String)
  tailnet_lock_error : Option String
  tailnet_lock_key : Option String
  tailscale_ips : Option (List String)
  update_available : Option Bool
  user : String

/-- `Device(**mapping)`: pydantic validation of a decoded value against
`Device` (aliases as declared in `models.py`; `created`, `expires`,
`last_seen` run `empty_str_to_none` first). -/
def Device.decode (j : Json) : Except PyError Device :=
  match j with
  | .obj fs => do
    let id ← reqStrV (fs.lookup "id") "id"
    let addresses ← reqStrListV (fs.lookup "addresses") "addresses"
    let authorized ← reqBoolV (fs.lookup "authorized") "authorized"
    let blocked_ports ← optIntListV (fs.lookup "blockedPorts") "blockedPorts"
    let blocks_incoming_connections ←
      optBoolV (fs.lookup "blocksIncomingConnections") "blocksIncomingConnections"
    let client_connectivity ← optObjV (fs.lookup "clientConnectivity") "clientConnectivity"
    let client_version ← optStrV (fs.lookup "clientVersion") "clientVersion"
    let created ← optDateTimeEmptyV (fs.lookup "created") "created"
    let expires ← optDateTimeEmptyV (fs.lookup "expires") "expires"
    let hostname ← reqStrV (fs.lookup "hostname") "hostname"
    let is_external ← optBoolV (fs.lookup "isExternal") "isExternal"
    let key_expiry_disabled ← optBoolV (fs.lookup "keyExpiryDisabled") "keyExpiryDisabled"
    let last_seen ← optDateTimeEmptyV (fs.lookup "lastSeen") "lastSeen"
    let machine_key ← optStrV (fs.lookup "machineKey") "machineKey"
    let name ← reqStrV (fs.lookup "name") "name"
    let node_id ← optStrV (fs.lookup "nodeId") "nodeId"
    let node_key ← optStrV (fs.lookup "nodeKey") "nodeKey"
    let os ← reqStrV (fs.lookup "os") "os"
    let tags ← optStrListV (fs.lookup "tags") "tags"
    let tailnet_lock_error ← optStrV (fs.lookup "tailnetLockError") "tailnetLockError"
    let tailnet_lock_key ← optStrV (fs.lookup "tailnetLockKey") "tailnetLockKey"
    let tailscale_ips ← optStrListV (fs.lookup "tailscaleIPs") "tailscaleIPs"
    let update_available ← optBoolV (fs.lookup "updateAvailable") "updateAvailable"
    let user ← reqStrV (fs.lookup "user") "user"
    return { id := id, addresses := addresses, authorized := authorized,
             blocked_ports := blocked_ports,
             blocks_incoming_connections := blocks_incoming_connections,
             client_connectivity := client_connectivity,
             client_version := client_version, created := created,
             expires := expires, hostname := hostname,
             is_external := is_external,
             key_expiry_disabled := key_expiry_disabled,
             last_seen := last_seen, machine_key := machine_key,
             name := name, node_id := node_id, node_key := node_key,
             os := os, tags := tags,
             tailnet_lock_error := tailnet_lock_error,
             tailnet_lock_key := tailnet_lock_key,
             tailscale_ips := tailscale_ips,
             update_available := update_available, user := user }
  | _ => .error .typeError

/-- `Device.model_dump(by_alias=True, mode='json')`. -/
def Device.encode (d : Device) : Json :=
  .obj [("id", .str d.id),
        ("addresses", encStrList d.addresses),
        ("authorized", .bool d.authorized),
        ("blockedPorts", encOptIntList d.blocked_ports),
        ("blocksIncomingConnections", encOptBool d.blocks_incoming_connections),
        ("clientConnectivity", encOptObj d.client_connectivity),
        ("clientVersion", encOptStr d.client_version),
        ("created", encOptDateTime d.created),
        ("expires", encOptDateTime d.expires),
        ("hostname", .str d.hostname),
        ("isExternal", encOptBool d.is_external),
        ("keyExpiryDisabled", encOptBool d.key_expiry_disabled),
        ("lastSeen", encOptDateTime d.last_seen),
        ("machineKey", encOptStr d.machine_key),
        ("name", .str d.name),
        ("nodeId", encOptStr d.node_id),
        ("nodeKey", encOptStr d.node_key),
        ("os", .str d.os),
        ("tags", encOptStrList d.tags),
        ("tailnetLockError", encOptStr d.tailnet_lock_error),
        ("tailnetLockKey", encOptStr d.tailnet_lock_key),
        ("tailscaleIPs", encOptStrList d.tailscale_ips),
        ("updateAvailable", encOptBool d.update_available),
        ("user", .str d.user)]

/-- `models.py` `User`. -/
structure User where
  id : String
  login_name : String
  display_name : String
  profile_pic_url : Option String
  tailnet_id : Option String
  created : Option DateTime
  type : Option String
  role : Option String
  status : Option String
  device_count : Option Int
  last_seen : Option DateTime
  currently_connected : Option Bool

/-- `User(**mapping)` (`created`, `last_seen` run `empty_str_to_none` first). -/
def User.decode (j : Json) : Except PyError User :=
  match j with
  | .obj fs => do
    let id ← reqStrV (fs.lookup "id") "id"
    let login_name ← reqStrV (fs.lookup "loginName") "loginName"
    let display_name ← reqStrV (fs.lookup "displayName") "displayName"
    let profile_pic_url ← optStrV (fs.lookup "profilePicUrl") "profilePicUrl"
    let tailnet_id ← optStrV (fs.lookup "tailnetId") "tailnetId"
    let created ← optDateTimeEmptyV (fs.lookup "created") "created"
    let type ← optStrV (fs.lookup "type") "type"
    let role ← optStrV (fs.lookup "role") "role"
    let status ← optStrV (fs.lookup "status") "status"
    let device_count ← optIntV (fs.lookup "deviceCount") "deviceCount"
    let last_seen ← optDateTimeEmptyV (fs.lookup "lastSeen") "lastSeen"
    let currently_connected ← optBoolV (fs.lookup "currentlyConnected") "currentlyConnected"
    return { id := id, login_name := login_name, display_name := display_name,
             profile_pic_url := profile_pic_url, tailnet_id := tailnet_id,
             created := created, type := type, role := role, status := status,
             device_count := device_count, last_seen := last_seen,
             currently_connected := currently_connected }
  | _ => .error .typeError

/-- `User.model_dump(by_alias=True, mode='json')`. -/
def User.encode (u : User) : Json :=
  .obj [("id", .str u.id),
        ("loginName", .str u.login_name),
        ("displayName", .str u.display_name),
        ("profilePicUrl", encOptStr u.profile_pic_url),
        ("tailnetId", encOptStr u.tailnet_id),
        ("created", encOptDateTime u.created),
        ("type", encOptStr u.type),
        ("role", encOptStr u.role),
        ("status", encOptStr u.status),
        ("deviceCount", encOptInt u.device_count),
        ("lastSeen", encOptDateTime u.last_seen),
        ("currentlyConnected", encOptBool u.currently_connected)]

/-- Decode one element of a `List[Dict[str, Any]]`. -/
def objElem (k : String) (j : Json) : Except PyError (List (String × Json)) :=
  match j with
  | .obj fs => .ok fs
  | _ => .error (.validationError k)

/-- Decode an `Optional[List[Dict[str, Any]]]` field value (default `None`). -/
def optObjListV (v : Option Json) (k : String) :
    Except PyError (Option (List (List (String × Json)))) :=
  match v with
  | none => .ok none
  | some .null => .ok none
  | some (.arr xs) => (mapExcept (objElem k) xs).map some
  | some _ => .error (.validationError k)

/-- Decode an `Optional[List[Dict[str, Any]]]` field with
`default_factory=list`: an absent key yields `[]`. -/
def optObjListDV (v : Option Json) (k : String) :
    Except PyError (Option (List (List (String × Json)))) :=
  match v with
  | none => .ok (some [])
  | some .null => .ok none
  | some (.arr xs) => (mapExcept (objElem k) xs).map some
  | some _ => .error (.validationError k)

/-- Decode one entry of a `Dict[str, str]`. -/
def strMapEntry (k : String) (p : String × Json) :
    Except PyError (String × String) :=
  match p.2 with
  | .str s => .ok (p.1, s)
  | _ => .error (.validationError k)

/-- Decode an `Optional[Dict[str, str]]` field value. -/
def optStrMapV (v : Option Json) (k : String) :
    Except PyError (Option (List (String × String))) :=
  match v with
  | none => .ok none
  | some .null => .ok none
  | some (.obj fs) => (mapExcept (strMapEntry k) fs).map some
  | some _ => .error (.validationError k)

/-- Decode one entry of a `Dict[str, List[str]]`. -/
def strListEntry (k : String) (p : String × Json) :
    Except PyError (String × List String) :=
  match p.2 with
  | .arr xs => (mapExcept (strElem k) xs).map (fun l => (p.1, l))
  | _ => .error (.validationError k)

/-- Decode an `Optional[Dict[str, List[str]]]` field value. -/
def optStrListMapV (v : Option Json) (k : String) :
    Except PyError (Option (List (String × List String))) :=
  match v with
  | none => .ok none
  | some .null => .ok none
  | some (.obj fs) => (mapExcept (strListEntry k) fs).map some
  | some _ => .error (.validationError k)

/-- A value of `Union[str, int, bool]`. -/
inductive SIB where
  | s (v : String) : SIB
  | i (v : Int) : SIB
  | b (v : Bool) : SIB

/-- Decode one value of a `Dict[str, Union[str, int, bool]]`. -/
def sibVal (k : String) (j : Json) : Except PyError SIB :=
  match j with
  | .str v => .ok (.s v)
  | .num v => .ok (.i v)
  | .bool v => .ok (.b v)
  | _ => .error (.validationError k)

/-- Decode one entry of a `Dict[str, Union[str, int, bool]]`. -/
def sibEntry (k : String) (p : String × Json) : Except PyError (String × SIB) :=
  match sibVal k p.2 with
  | .ok v => .ok (p.1, v)
  | .error e => .error e

/-- Decode a required `Dict[str, Union[str, int, bool]]` field value. -/
def reqSIBMapV (v : Option Json) (k : String) :
    Except PyError (List (String × SIB)) :=
  match v with
  | some (.obj fs) => mapExcept (sibEntry k) fs
  | _ => .error (.validationError k)

/-- Encode an `Optional[List[Dict[str, Any]]]` field. -/
def encOptObjList (o : Option (List (List (String × Json)))) : Json :=
  match o with
  | none => .null
  | some xs => .arr (xs.map .obj)

/-- Encode an `Optional[Dict[str, str]]` field. -/
def encOptStrMap (o : Option (List (String × String))) : Json :=
  match o with
  | none => .null
  | some fs => .obj (fs.map (fun p => (p.1, .str p.2)))

/-- Encode an `Optional[Dict[str, List[str]]]` field. -/
def encOptStrListMap (o : Option (List (String × List String))) : Json :=
  match o with
  | none => .null
  | some fs => .obj (fs.map (fun p => (p.1, encStrList p.2)))

/-- Encode a `Union[str, int, bool]` value. -/
def encSIB (v : SIB) : Json :=
  match v with
  | .s v => .str v
  | .i v => .num v
  | .b v => .bool v

/-- Encode a `Dict[str, Union[str, int, bool]]` field. -/
def encSIBMap (fs : List (String × SIB)) : Json :=
  .obj (fs.map (fun p => (p.1, encSIB p.2)))

/-- `models.py` `ACL`. -/
structure ACL where
  acls : Option (List (List (String × Json)))
  groups : Option (List (String × List String))
  hosts : Option (List (String × String))
  tag_owners : Option (List (String × List String))
  tests : Option (List (List (String × Json)))
  ssh : Option (List (List (String × Json)))
  node_attrs : Option (List (List (String × Json)))

/-- `ACL(**mapping)` (`acls` has `default_factory=list`). -/
def ACL.decode (j : Json) : Except PyError ACL :=
  match j with
  | .obj fs => do
    let acls ← optObjListDV (fs.lookup "acls") "acls"
    let groups ← optStrListMapV (fs.lookup "groups") "groups"
    let hosts ← optStrMapV (fs.lookup "hosts") "hosts"
    let tag_owners ← optStrListMapV (fs.lookup "tagOwners") "tagOwners"
    let tests ← optObjListV (fs.lookup "tests") "tests"
    let ssh ← optObjListV (fs.lookup "ssh") "ssh"
    let node_attrs ← optObjListV (fs.lookup "nodeAttrs") "nodeAttrs"
    return { acls := acls, groups := groups, hosts := hosts,
             tag_owners := tag_owners, tests := tests, ssh := ssh,
             node_attrs := node_attrs }
  | _ => .error .typeError

/-- `ACL.model_dump(by_alias=True, mode='json')`. -/
def ACL.encode (a : ACL) : Json :=
  .obj [("acls", encOptObjList a.acls),
        ("groups", encOptStrListMap a.groups),
        ("hosts", encOptStrMap a.hosts),
        ("tagOwners", encOptStrListMap a.tag_owners),
        ("tests", encOptObjList a.tests),
        ("ssh", encOptObjList a.ssh),
        ("nodeAttrs", encOptObjList a.node_attrs)]

/-- `models.py` `DNSConfig`. -/
structure DNSConfig where
  domains : Option (List String)
  magic_dns : Bool
  nameservers : Option (List String)
  override_local_dns : Option Bool
  routes : Option (List (String × List String))

/-- `DNSConfig(**mapping)` (`domains`, `nameservers` have
`default_factory=list`; `magic_dns` is required under alias `magicDNS`). -/
def DNSConfig.decode (j : Json) : Except PyError DNSConfig :=
  match j with
  | .obj fs => do
    let domains ← optStrListDV (fs.lookup "domains") "domains"
    let magic_dns ← reqBoolV (fs.lookup "magicDNS") "magicDNS"
    let nameservers ← optStrListDV (fs.lookup "nameservers") "nameservers"
    let override_local_dns ← optBoolV (fs.lookup "overrideLocalDNS") "overrideLocalDNS"
    let routes ← optStrListMapV (fs.lookup "routes") "routes"
    return { domains := domains, magic_dns := magic_dns,
             nameservers := nameservers,
             override_local_dns := override_local_dns, routes := routes }
  | _ => .error .typeError

/-- `DNSConfig.model_dump(by_alias=True, mode='json')`. -/
def DNSConfig.encode (d : DNSConfig) : Json :=
  .obj [("domains", encOptStrList d.domains),
        ("magicDNS", .bool d.magic_dns),
        ("nameservers", encOptStrList d.nameservers),
        ("overrideLocalDNS", encOptBool d.override_local_dns),
        ("routes", encOptStrListMap d.routes)]

/-- `models.py` `DeviceRoutes`. -/
structure DeviceRoutes where
  advertised_routes : List String
  enabled_routes : List String

/-- `DeviceRoutes(**mapping)`. -/
def DeviceRoutes.decode (j : Json) : Except PyError DeviceRoutes :=
  match j with
  | .obj fs => do
    let advertised_routes ← reqStrListV (fs.lookup "advertisedRoutes") "advertisedRoutes"
    let enabled_routes ← reqStrListV (fs.lookup "enabledRoutes") "enabledRoutes"
    return { advertised_routes := advertised_routes,
             enabled_routes := enabled_routes }
  | _ => .error .typeError

/-- `DeviceRoutes.model_dump(by_alias=True, mode='json')`. -/
def DeviceRoutes.encode (d : DeviceRoutes) : Json :=
  .obj [("advertisedRoutes", encStrList d.advertised_routes),
        ("enabledRoutes", encStrList d.enabled_routes)]

/-- `models.py` `DevicePostureAttributes`. -/
structure DevicePostureAttributes where
  attributes : List (String × SIB)

/-- `DevicePostureAttributes(**mapping)`. -/
def DevicePostureAttributes.decode (j : Json) :
    Except PyError DevicePostureAttributes :=
  match j with
  | .obj fs => do
    let attributes ← reqSIBMapV (fs.lookup "attributes") "attributes"
    return { attributes := attributes }
  | _ => .error .typeError

/-- `DevicePostureAttributes.model_dump(by_alias=True, mode='json')`. -/
def DevicePostureAttributes.encode (d : DevicePostureAttributes) : Json :=
  .obj [("attributes", encSIBMap d.attributes)]

/-- `models.py` `DeviceInvite`. -/
structure DeviceInvite where
  id : String
  created : DateTime
  email : Option String
  multi_use : Bool
  allow_exit_node : Bool
  used : Bool
  device_id : String
  expires : Option DateTime

/-- `DeviceInvite(**mapping)`. -/
def DeviceInvite.decode (j : Json) : Except PyError DeviceInvite :=
  match j with
  | .obj fs => do
    let id ← reqStrV (fs.lookup "id") "id"
    let created ← reqDateTimeV (fs.lookup "created") "created"
    let email ← optStrV (fs.lookup "email") "email"
    let multi_use ← reqBoolV (fs.lookup "multiUse") "multiUse"
    let allow_exit_node ← reqBoolV (fs.lookup "allowExitNode") "allowExitNode"
    let used ← reqBoolV (fs.lookup "used") "used"
    let device_id ← reqStrV (fs.lookup "deviceId") "deviceId"
    let expires ← optDateTimeV (fs.lookup "expires") "expires"
    return { id := id, created := created, email := email,
             multi_use := multi_use, allow_exit_node := allow_exit_node,
             used := used, device_id := device_id, expires := expires }
  | _ => .error .typeError

/-- `DeviceInvite.model_dump(by_alias=True, mode='json')`. -/
def DeviceInvite.encode (d : DeviceInvite) : Json :=
  .obj [("id", .str d.id),
        ("created", encDateTime d.created),
        ("email", encOptStr d.email),
        ("multiUse", .bool d.multi_use),
        ("allowExitNode", .bool d.allow_exit_node),
        ("used", .bool d.used),
        ("deviceId", .str d.device_id),
        ("expires", encOptDateTime d.expires)]

/-- `models.py` `UserInvite`. -/
structure UserInvite where
  id : String
  email : String
  role : String
  created_at : DateTime
  expires_at : DateTime
  accepted : Bool
  sent_at : Option DateTime

/-- `UserInvite(**mapping)`. -/
def UserInvite.decode (j : Json) : Except PyError UserInvite :=
  match j with
  | .obj fs => do
    let id ← reqStrV (fs.lookup "id") "id"
    let email ← reqStrV (fs.lookup "email") "email"
    let role ← reqStrV (fs.lookup "role") "role"
    let created_at ← reqDateTimeV (fs.lookup "createdAt") "createdAt"
    let expires_at ← reqDateTimeV (fs.lookup "expiresAt") "expiresAt"
    let accepted ← reqBoolV (fs.lookup "accepted") "accepted"
    let sent_at ← optDateTimeV (fs.lookup "sentAt") "sentAt"
    return { id := id, email := email, role := role,
             created_at := created_at, expires_at := expires_at,
             accepted := accepted, sent_at := sent_at }
  | _ => .error .typeError

/-- `UserInvite.model_dump(by_alias=True, mode='json')`. -/
def UserInvite.encode (u : UserInvite) : Json :=
  .obj [("id", .str u.id),
        ("email", .str u.email),
        ("role", .str u.role),
        ("createdAt", encDateTime u.created_at),
        ("expiresAt", encDateTime u.expires_at),
        ("accepted", .bool u.accepted),
        ("sentAt", encOptDateTime u.sent_at)]

/-- `models.py` `ApiKey`. -/
structure ApiKey where
  id : String
  description : Option String
  capabilities : List (String × Json)
  created : DateTime
  expires : DateTime
  revoked : Option DateTime

/-- `ApiKey(**mapping)`. -/
def ApiKey.decode (j : Json) : Except PyError ApiKey :=
  match j with
  | .obj fs => do
    let id ← reqStrV (fs.lookup "id") "id"
    let description ← optStrV (fs.lookup "description") "description"
    let capabilities ← reqObjV (fs.lookup "capabilities") "capabilities"
    let created ← reqDateTimeV (fs.lookup "created") "created"
    let expires ← reqDateTimeV (fs.lookup "expires") "expires"
    let revoked ← optDateTimeV (fs.lookup "revoked") "revoked"
    return { id := id, description := description,
             capabilities := capabilities, created := created,
             expires := expires, revoked := revoked }
  | _ => .error .typeError

/-- `ApiKey.model_dump(by_alias=True, mode='json')`. -/
def ApiKey.encode (k : ApiKey) : Json :=
  .obj [("id", .str k.id),
        ("description", encOptStr k.description),
        ("capabilities", .obj k.capabilities),
        ("created", encDateTime k.created),
        ("expires", encDateTime k.expires),
        ("revoked", encOptDateTime k.revoked)]

/-- `models.py` `AuthKey`. -/
structure AuthKey where
  id : String
  description : Option String
  created : DateTime
  expires : DateTime
  capabilities : List (String × Json)
  revoked : Option DateTime

/-- `AuthKey(**mapping)`. -/
def AuthKey.decode (j : Json) : Except PyError AuthKey :=
  match j with
  | .obj fs => do
    let id ← reqStrV (fs.lookup "id") "id"
    let description ← optStrV (fs.lookup "description") "description"
    let created ← reqDateTimeV (fs.lookup "created") "created"
    let expires ← reqDateTimeV (fs.lookup "expires") "expires"
    let capabilities ← reqObjV (fs.lookup "capabilities") "capabilities"
    let revoked ← optDateTimeV (fs.lookup "revoked") "revoked"
    return { id := id, description := description, created := created,
             expires := expires, capabilities := capabilities,
             revoked := revoked }
  | _ => .error .typeError

/-- `AuthKey.model_dump(by_alias=True, mode='json')`. -/
def AuthKey.encode (k : AuthKey) : Json :=
  .obj [("id", .str k.id),
        ("description", encOptStr k.description),
        ("created", encDateTime k.created),
        ("expires", encDateTime k.expires),
        ("capabilities", .obj k.capabilities),
        ("revoked", encOptDateTime k.revoked)]

/-- `models.py` `LogEntry`. -/
structure LogEntry where
  timestamp : DateTime
  type : String
  message : String
  data : Option (List (String × Json))

/-- `LogEntry(**mapping)`. -/
def LogEntry.decode (j : Json) : Except PyError LogEntry :=
  match j with
  | .obj fs => do
    let timestamp ← reqDateTimeV (fs.lookup "timestamp") "timestamp"
    let type ← reqStrV (fs.lookup "type") "type"
    let message ← reqStrV (fs.lookup "message") "message"
    let data ← optObjV (fs.lookup "data") "data"
    return { timestamp := timestamp, type := type, message := message,
             data := data }
  | _ => .error .typeError

/-- `LogEntry.model_dump(by_alias=True, mode='json')`. -/
def LogEntry.encode (l : LogEntry) : Json :=
  .obj [("timestamp", encDateTime l.timestamp),
        ("type", .str l.type),
        ("message", .str l.message),
        ("data", encOptObj l.data)]

/-- `models.py` `ContactPreference`. -/
structure ContactPreference where
  security : Option String
  support : Option String
  billing : Option String

/-- `ContactPreference(**mapping)`. -/
def ContactPreference.decode (j : Json) : Except PyError ContactPreference :=
  match j with
  | .obj fs => do
    let security ← optStrV (fs.lookup "security") "security"
    let support ← optStrV (fs.lookup "support") "support"
    let billing ← optStrV (fs.lookup "billing") "billing"
    return { security := security, support := support, billing := billing }
  | _ => .error .typeError

/-- `ContactPreference.model_dump(by_alias=True, mode='json')`. -/
def ContactPreference.encode (c : ContactPreference) : Json :=
  .obj [("security", encOptStr c.security),
        ("support", encOptStr c.support),
        ("billing", encOptStr c.billing)]

/-- `models.py` `Webhook`. -/
structure Webhook where
  endpoint_id : String
  endpoint_url : String
  provider_type : String
  subscriptions : List String
  created : DateTime
  last_triggered : Option DateTime
  secret : Option String

/-- `Webhook(**mapping)`. -/
def Webhook.decode (j : Json) : Except PyError Webhook :=
  match j with
  | .obj fs => do
    let endpoint_id ← reqStrV (fs.lookup "endpointId") "endpointId"
    let endpoint_url ← reqStrV (fs.lookup "endpointUrl") "endpointUrl"
    let provider_type ← reqStrV (fs.lookup "providerType") "providerType"
    let subscriptions ← reqStrListV (fs.lookup "subscriptions") "subscriptions"
    let created ← reqDateTimeV (fs.lookup "created") "created"
    let last_triggered ← optDateTimeV (fs.lookup "lastTriggered") "lastTriggered"
    let secret ← optStrV (fs.lookup "secret") "secret"
    return { endpoint_id := endpoint_id, endpoint_url := endpoint_url,
             provider_type := provider_type, subscriptions := subscriptions,
             created := created, last_triggered := last_triggered,
             secret := secret }
  | _ => .error .typeError

/-- `Webhook.model_dump(by_alias=True, mode='json')`. -/
def Webhook.encode (w : Webhook) : Json :=
  .obj [("endpointId", .str w.endpoint_id),
        ("endpointUrl", .str w.endpoint_url),
        ("providerType", .str w.provider_type),
        ("subscriptions", encStrList w.subscriptions),
        ("created", encDateTime w.created),
        ("lastTriggered", encOptDateTime w.last_triggered),
        ("secret", encOptStr w.secret)]

/-- `models.py` `TailnetSettings`. -/
structure TailnetSettings where
  devices_approval_on : Option Bool
  devices_auto_updates_on : Option Bool
  devices_key_duration_days : Option Int
  network_flow_logging_on : Option Bool
  regional_routing_on : Option Bool
  route_all_on : Option Bool
  magic_dns_enabled : Option Bool
  enhanced_security_features_on : Option Bool

/-- `TailnetSettings(**mapping)`. -/
def TailnetSettings.decode (j : Json) : Except PyError TailnetSettings :=
  match j with
  | .obj fs => do
    let devices_approval_on ← optBoolV (fs.lookup "devicesApprovalOn") "devicesApprovalOn"
    let devices_auto_updates_on ←
      optBoolV (fs.lookup "devicesAutoUpdatesOn") "devicesAutoUpdatesOn"
    let devices_key_duration_days ←
      optIntV (fs.lookup "devicesKeyDurationDays") "devicesKeyDurationDays"
    let network_flow_logging_on ←
      optBoolV (fs.lookup "networkFlowLoggingOn") "networkFlowLoggingOn"
    let regional_routing_on ← optBoolV (fs.lookup "regionalRoutingOn") "regionalRoutingOn"
    let route_all_on ← optBoolV (fs.lookup "routeAllOn") "routeAllOn"
    let magic_dns_enabled ← optBoolV (fs.lookup "magicDNSEnabled") "magicDNSEnabled"
    let enhanced_security_features_on ←
      optBoolV (fs.lookup "enhancedSecurityFeaturesOn") "enhancedSecurityFeaturesOn"
    return { devices_approval_on := devices_approval_on,
             devices_auto_updates_on := devices_auto_updates_on,
             devices_key_duration_days := devices_key_duration_days,
             network_flow_logging_on := network_flow_logging_on,
             regional_routing_on := regional_routing_on,
             route_all_on := route_all_on,
             magic_dns_enabled := magic_dns_enabled,
             enhanced_security_features_on := enhanced_security_features_on }
  | _ => .error .typeError

/-- `TailnetSettings.model_dump(by_alias=True, mode='json')`. -/
def TailnetSettings.encode (t : TailnetSettings) : Json :=
  .obj [("devicesApprovalOn", encOptBool t.devices_approval_on),
        ("devicesAutoUpdatesOn", encOptBool t.devices_auto_updates_on),
        ("devicesKeyDurationDays", encOptInt t.devices_key_duration_days),
        ("networkFlowLoggingOn", encOptBool t.network_flow_logging_on),
        ("regionalRoutingOn", encOptBool t.regional_routing_on),
        ("routeAllOn", encOptBool t.route_all_on),
        ("magicDNSEnabled", encOptBool t.magic_dns_enabled),
        ("enhancedSecurityFeaturesOn", encOptBool t.enhanced_security_features_on)]

/-- `models.py` `PostureIntegration`. -/
structure PostureIntegration where
  id : String
  provider : String
  created_at : DateTime
  config : List (String × Json)

/-- `PostureIntegration(**mapping)`. -/
def PostureIntegration.decode (j : Json) : Except PyError PostureIntegration :=
  match j with
  | .obj fs => do
    let id ← reqStrV (fs.lookup "id") "id"
    let provider ← reqStrV (fs.lookup "provider") "provider"
    let created_at ← reqDateTimeV (fs.lookup "createdAt") "createdAt"
    let config ← reqObjV (fs.lookup "config") "config"
    return { id := id, provider := provider, created_at := created_at,
             config := config }
  | _ => .error .typeError

/-- `PostureIntegration.model_dump(by_alias=True, mode='json')`. -/
def PostureIntegration.encode (p : PostureIntegration) : Json :=
  .obj [("id", .str p.id),
        ("provider", .str p.provider),
        ("createdAt", encDateTime p.created_at),
        ("config", .obj p.config)]

/-! ## Resource-mapper methods (`client.py`)

Each method returns its Python result (or error) paired with the list of
HTTP requests it issued.  Untyped (`Dict`/`List[Dict]`) results are carried
as the raw decoded Python value `Option Json`. -/

/-- `params = {"fields": fields} if fields else None` (shared by
`list_devices` and `get_device`). -/
def fieldsParams (fields : Option String) : Option (List (String × String)) :=
  match fields with
  | some s => if s.isEmpty then none else some [("fields", s)]
  | none => none

/-- The `if arg: params[k] = arg` pattern for an optional query argument. -/
def optQueryParam (k : String) (v : Option String) : List (String × String) :=
  match v with
  | some s => if s.isEmpty then [] else [(k, s)]
  | none => []

/-- `90 * 24 * 60 * 60`, the default `expiry_seconds` of `create_api_key`
and `create_auth_key`. -/
def defaultExpirySeconds : Int := 90 * 24 * 60 * 60

/-- `list_devices(fields)`. -/
def TailscaleClient.list_devices (c : TailscaleClient) (fields : Option String)
    (oracle : Request → NetResult) : Except PyError (List Device) × List Request :=
  let (data, trace) :=
    c.reqPy oracle "GET" ("/tailnet/" ++ c.tailnet ++ "/devices") (fieldsParams fields) none
  (do
    let data ← data
    let v ← pyGet data "devices" (some (Json.arr []))
    let xs ← pyIterList v
    mapExcept Device.decode xs, trace)

/-- `list_devices()` with the default `fields="all"`. -/
def TailscaleClient.list_devices' (c : TailscaleClient)
    (oracle : Request → NetResult) : Except PyError (List Device) × List Request :=
  c.list_devices (some "all") oracle

/-- `get_device(device_id, fields)`. -/
def TailscaleClient.get_device (c : TailscaleClient) (device_id : String)
    (fields : Option String) (oracle : Request → NetResult) :
    Except PyError Device × List Request :=
  let (data, trace) :=
    c.reqPy oracle "GET" ("/device/" ++ device_id) (fieldsParams fields) none
  (do
    let data ← data
    match data with
    | some j => Device.decode j
    | none => Except.error PyError.typeError, trace)

/-- `get_device(device_id)` with the default `fields="all"`. -/
def TailscaleClient.get_device' (c : TailscaleClient) (device_id : String)
    (oracle : Request → NetResult) : Except PyError Device × List Request :=
  c.get_device device_id (some "all") oracle

/-- `delete_device(device_id)`: issues the request and discards the body. -/
def TailscaleClient.delete_device (c : TailscaleClient) (device_id : String)
    (oracle : Request → NetResult) : Except PyError Unit × List Request :=
  let (data, trace) := c.reqPy oracle "DELETE" ("/device/" ++ device_id) none none
  (data.map (fun _ => ()), trace)

/-- `authorize_device(device_id, authorized)`. -/
def TailscaleClient.authorize_device (c : TailscaleClient) (device_id : String)
    (authorized : Bool) (oracle : Request → NetResult) :
    Except PyError Unit × List Request :=
  let (data, trace) :=
    c.reqPy oracle "POST" ("/device/" ++ device_id ++ "/authorized") none
      (some (Json.obj [("authorized", Json.bool authorized)]))
  (data.map (fun _ => ()), trace)

/-- `authorize_device(device_id)` with the default `authorized=True`. -/
def TailscaleClient.authorize_device' (c : TailscaleClient) (device_id : String)
    (oracle : Request → NetResult) : Except PyError Unit × List Request :=
  c.authorize_device device_id true oracle

/-- `list_users()`. -/
def TailscaleClient.list_users (c : TailscaleClient)
    (oracle : Request → NetResult) : Except PyError (List User) × List Request :=
  let (data, trace) :=
    c.reqPy oracle "GET" ("/tailnet/" ++ c.tailnet ++ "/users") none none
  (do
    let data ← data
    let v ← pyGet data "users" (some (Json.arr []))
    let xs ← pyIterList v
    mapExcept User.decode xs, trace)

/-- `get_user(user_id)`. -/
def TailscaleClient.get_user (c : TailscaleClient) (user_id : String)
    (oracle : Request → NetResult) : Except PyError User × List Request :=
  let (data, trace) :=
    c.reqPy oracle "GET" ("/tailnet/" ++ c.tailnet ++ "/users/" ++ user_id) none none
  (do
    let data ← data
    match data with
    | some j => User.decode j
    | none => Except.error PyError.typeError, trace)

/-- `get_acl()`. -/
def TailscaleClient.get_acl (c : TailscaleClient)
    (oracle : Request → NetResult) : Except PyError ACL × List Request :=
  let (data, trace) :=
    c.reqPy oracle "GET" ("/tailnet/" ++ c.tailnet ++ "/acl") none none
  (do
    let data ← data
    match data with
    | some j => ACL.decode j
    | none => Except.error PyError.typeError, trace)

/-- `get_dns_config()`. -/
def TailscaleClient.get_dns_config (c : TailscaleClient)
    (oracle : Request → NetResult) : Except PyError DNSConfig × List Request :=
  let (data, trace) :=
    c.reqPy oracle "GET" ("/tailnet/" ++ c.tailnet ++ "/dns/preferences") none none
  (do
    let data ← data
    match data with
    | some j => DNSConfig.decode j
    | none => Except.error PyError.typeError, trace)

/-- `list_user_invites()`:
`return data.get("invites", []) if data else []`. -/
def TailscaleClient.list_user_invites (c : TailscaleClient)
    (oracle : Request → NetResult) : Except PyError (Option Json) × List Request :=
  let (data, trace) :=
    c.reqPy oracle "GET" ("/tailnet/" ++ c.tailnet ++ "/user-invites") none none
  (do
    let data ← data
    if pyTruthy data then pyGet data "invites" (some (Json.arr []))
    else pure (some (Json.arr [])), trace)

/-- `list_device_invites(device_id)`: `return data.get("invites", [])`. -/
def TailscaleClient.list_device_invites (c : TailscaleClient) (device_id : String)
    (oracle : Request → NetResult) : Except PyError (Option Json) × List Request :=
  let (data, trace) :=
    c.reqPy oracle "GET" ("/device/" ++ device_id ++ "/device-invites") none none
  (do
    let data ← data
    pyGet data "invites" (some (Json.arr [])), trace)

/-- `list_api_keys()`: `return data.get("keys", [])`. -/
def TailscaleClient.list_api_keys (c : TailscaleClient)
    (oracle : Request → NetResult) : Except PyError (Option Json) × List Request :=
  let (data, trace) :=
    c.reqPy oracle "GET" ("/tailnet/" ++ c.tailnet ++ "/keys") none none
  (do
    let data ← data
    pyGet data "keys" (some (Json.arr [])), trace)

/-- `list_auth_keys()`: `return data.get("keys", [])`. -/
def TailscaleClient.list_auth_keys (c : TailscaleClient)
    (oracle : Request → NetResult) : Except PyError (Option Json) × List Request :=
  let (data, trace) :=
    c.reqPy oracle "GET" ("/tailnet/" ++ c.tailnet ++ "/keys") none none
  (do
    let data ← data
    pyGet data "keys" (some (Json.arr [])), trace)

/-- `list_webhooks()`:
`webhooks = data.get("webhooks") if data else None` then
`return webhooks if webhooks is not None else []`. -/
def TailscaleClient.list_webhooks (c : TailscaleClient)
    (oracle : Request → NetResult) : Except PyError (Option Json) × List Request :=
  let (data, trace) :=
    c.reqPy oracle "GET" ("/tailnet/" ++ c.tailnet ++ "/webhooks") none none
  (do
    let data ← data
    let webhooks ← if pyTruthy data then pyGet data "webhooks" none else pure none
    pure (match webhooks with
          | some w => some w
          | none => some (Json.arr [])), trace)

/-- `list_posture_integrations()`: `return data.get("integrations", [])`. -/
def TailscaleClient.list_posture_integrations (c : TailscaleClient)
    (oracle : Request → NetResult) : Except PyError (Option Json) × List Request :=
  let (data, trace) :=
    c.reqPy oracle "GET" ("/tailnet/" ++ c.tailnet ++ "/posture/integrations") none none
  (do
    let data ← data
    pyGet data "integrations" (some (Json.arr [])), trace)

/-- `get_network_logs(start, end)`: `return data.get("logs", [])`
(the query mapping is empty when both arguments are falsy, and an empty
mapping is not attached by `_request`). -/
def TailscaleClient.get_network_logs (c : TailscaleClient)
    (start endT : Option String) (oracle : Request → NetResult) :
    Except PyError (Option Json) × List Request :=
  let params := optQueryParam "start" start ++ optQueryParam "end" endT
  let (data, trace) :=
    c.reqPy oracle "GET" ("/tailnet/" ++ c.tailnet ++ "/logging/network") (some params) none
  (do
    let data ← data
    pyGet data "logs" (some (Json.arr [])), trace)

/-- `get_configuration_audit_logs(start, end, actor, target, event)`:
`logs = data.get("logs") if data else None` then
`return logs if logs is not None else []`. -/
def TailscaleClient.get_configuration_audit_logs (c : TailscaleClient)
    (start : String) (endT actor target event : Option String)
    (oracle : Request → NetResult) : Except PyError (Option Json) × List Request :=
  let params := [("start", start)] ++ optQueryParam "end" endT ++ optQueryParam "actor" actor
    ++ optQueryParam "target" target ++ optQueryParam "event" event
  let (data, trace) :=
    c.reqPy oracle "GET" ("/tailnet/" ++ c.tailnet ++ "/logging/configuration")
      (some params) none
  (do
    let data ← data
    let logs ← if pyTruthy data then pyGet data "logs" none else pure none
    pure (match logs with
          | some l => some l
          | none => some (Json.arr [])), trace)

/-- `set_device_attribute`: `body = {"value": value}`, then
`if expiry: body["expiry"] = expiry`, `if comment: body["comment"] = comment`. -/
def setDeviceAttributeBody (value : Json) (expiry comment : Option String) :
    List (String × Json) :=
  let b0 := [("value", value)]
  let b1 :=
    match expiry with
    | some s => if s.isEmpty then b0 else b0 ++ [("expiry", Json.str s)]
    | none => b0
  match comment with
  | some s => if s.isEmpty then b1 else b1 ++ [("comment", Json.str s)]
  | none => b1

/-- `set_device_attribute(device_id, attribute_key, value, expiry, comment)`. -/
def TailscaleClient.set_device_attribute (c : TailscaleClient)
    (device_id attribute_key : String) (value : Json)
    (expiry comment : Option String) (oracle : Request → NetResult) :
    Except PyError (Option Json) × List Request :=
  c.reqPy oracle "POST" ("/device/" ++ device_id ++ "/attributes/" ++ attribute_key)
    none (some (Json.obj (setDeviceAttributeBody value expiry comment)))

/-- `set_device_attribute(device_id, attribute_key, value)` with the defaults
`expiry=None`, `comment=None`. -/
def TailscaleClient.set_device_attribute' (c : TailscaleClient)
    (device_id attribute_key : String) (value : Json)
    (oracle : Request → NetResult) : Except PyError (Option Json) × List Request :=
  c.set_device_attribute device_id attribute_key value none none oracle

/-- `create_device_invite`: `body = {"multiUse": ..., "allowExitNode": ...}`,
then `if email: body["email"] = email`. -/
def createDeviceInviteBody (multiUse allowExitNode : Bool)
    (email : Option String) : List (String × Json) :=
  let b0 := [("multiUse", Json.bool multiUse), ("allowExitNode", Json.bool allowExitNode)]
  match email with
  | some s => if s.isEmpty then b0 else b0 ++ [("email", Json.str s)]
  | none => b0

/-- `create_device_invite(device_id, multiUse, allowExitNode, email)`. -/
def TailscaleClient.create_device_invite (c : TailscaleClient) (device_id : String)
    (multiUse allowExitNode : Bool) (email : Option String)
    (oracle : Request → NetResult) : Except PyError (Option Json) × List Request :=
  c.reqPy oracle "POST" ("/device/" ++ device_id ++ "/device-invites")
    none (some (Json.obj (createDeviceInviteBody multiUse allowExitNode email)))

/-- `create_device_invite(device_id)` with the defaults
`multiUse=False`, `allowExitNode=False`, `email=None`. -/
def TailscaleClient.create_device_invite' (c : TailscaleClient) (device_id : String)
    (oracle : Request → NetResult) : Except PyError (Option Json) × List Request :=
  c.create_device_invite device_id false false none oracle

/-- `create_api_key`: `body = {"capabilities": ..., "expirySeconds": ...}`,
then `if description: body["description"] = description`. -/
def createApiKeyBody (capabilities : List (String × Json)) (expiry_seconds : Int)
    (description : Option String) : List (String × Json) :=
  let b0 := [("capabilities", Json.obj capabilities),
             ("expirySeconds", Json.num expiry_seconds)]
  match description with
  | some s => if s.isEmpty then b0 else b0 ++ [("description", Json.str s)]
  | none => b0

/-- `create_api_key(capabilities, expiry_seconds, description)`. -/
def TailscaleClient.create_api_key (c : TailscaleClient)
    (capabilities : List (String × Json)) (expiry_seconds : Int)
    (description : Option String) (oracle : Request → NetResult) :
    Except PyError (Option Json) × List Request :=
  c.reqPy oracle "POST" ("/tailnet/" ++ c.tailnet ++ "/keys")
    none (some (Json.obj (createApiKeyBody capabilities expiry_seconds description)))

/-- `create_api_key(capabilities)` with the defaults
`expiry_seconds=90*24*60*60`, `description=None`. -/
def TailscaleClient.create_api_key' (c : TailscaleClient)
    (capabilities : List (String × Json)) (oracle : Request → NetResult) :
    Except PyError (Option Json) × List Request :=
  c.create_api_key capabilities defaultExpirySeconds none oracle

/-- `tags or []`. -/
def orEmptyList (tags : Option (List String)) : List String :=
  match tags with
  | some l => if l.isEmpty then [] else l
  | none => []

/-- `create_auth_key`: the nested
`{"capabilities": {"devices": {"create": {...}}}, "expirySeconds": ...}`
body, then `if description: body["description"] = description`. -/
def createAuthKeyBody (ephemeral reusable : Bool) (expiry_seconds : Int)
    (description : Option String) (tags : Option (List String)) :
    List (String × Json) :=
  let b0 := [("capabilities", Json.obj
               [("devices", Json.obj
                 [("create", Json.obj
                   [("ephemeral", Json.bool ephemeral),
                    ("reusable", Json.bool reusable),
                    ("tags", encStrList (orEmptyList tags))])])]),
             ("expirySeconds", Json.num expiry_seconds)]
  match description with
  | some s => if s.isEmpty then b0 else b0 ++ [("description", Json.str s)]
  | none => b0

/-- `create_auth_key(ephemeral, reusable, expiry_seconds, description, tags)`. -/
def TailscaleClient.create_auth_key (c : TailscaleClient)
    (ephemeral reusable : Bool) (expiry_seconds : Int)
    (description : Option String) (tags : Option (List String))
    (oracle : Request → NetResult) : Except PyError (Option Json) × List Request :=
  c.reqPy oracle "POST" ("/tailnet/" ++ c.tailnet ++ "/keys")
    none (some (Json.obj (createAuthKeyBody ephemeral reusable expiry_seconds description tags)))

/-- `create_auth_key()` with the defaults `ephemeral=False`, `reusable=False`,
`expiry_seconds=90*24*60*60`, `description=None`, `tags=None`. -/
def TailscaleClient.create_auth_key' (c : TailscaleClient)
    (oracle : Request → NetResult) : Except PyError (Option Json) × List Request :=
  c.create_auth_key false false defaultExpirySeconds none none oracle

/-- `create_webhook`: `body = {"endpointUrl": ..., "providerType": ...}`,
then `if subscriptions: body["subscriptions"] = subscriptions`. -/
def createWebhookBody (endpoint_url provider_type : String)
    (subscriptions : Option (List String)) : List (String × Json) :=
  let b0 := [("endpointUrl", Json.str endpoint_url),
             ("providerType", Json.str provider_type)]
  match subscriptions with
  | some l => if l.isEmpty then b0 else b0 ++ [("subscriptions", encStrList l)]
  | none => b0

/-- `create_webhook(endpoint_url, provider_type, subscriptions)`. -/
def TailscaleClient.create_webhook (c : TailscaleClient)
    (endpoint_url provider_type : String) (subscriptions : Option (List String))
    (oracle : Request → NetResult) : Except PyError (Option Json) × List Request :=
  c.reqPy oracle "POST" ("/tailnet/" ++ c.tailnet ++ "/webhooks")
    none (some (Json.obj (createWebhookBody endpoint_url provider_type subscriptions)))

/-- `create_webhook(endpoint_url)` with the defaults
`provider_type="generic"`, `subscriptions=None`. -/
def TailscaleClient.create_webhook' (c : TailscaleClient) (endpoint_url : String)
    (oracle : Request → NetResult) : Except PyError (Option Json) × List Request :=
  c.create_webhook endpoint_url "generic" none oracle

/-! ## Declared field-name / wire-name tables

One pair `(typed field name, declared wire name)` per declared field of each
pydantic model, exactly as in `models.py` (`Field(..., alias=...)`; a field
with no alias uses its own name on the wire). -/

/-- `Device` field/alias table. -/
def deviceAliases : List (String × String) :=
  [("id", "id"), ("addresses", "addresses"), ("authorized", "authorized"),
   ("blocked_ports", "blockedPorts"),
   ("blocks_incoming_connections", "blocksIncomingConnections"),
   ("client_connectivity", "clientConnectivity"),
   ("client_version", "clientVersion"), ("created", "created"),
   ("expires", "expires"), ("hostname", "hostname"),
   ("is_external", "isExternal"), ("key_expiry_disabled", "keyExpiryDisabled"),
   ("last_seen", "lastSeen"), ("machine_key", "machineKey"), ("name", "name"),
   ("node_id", "nodeId"), ("node_key", "nodeKey"), ("os", "os"),
   ("tags", "tags"), ("tailnet_lock_error", "tailnetLockError"),
   ("tailnet_lock_key", "tailnetLockKey"), ("tailscale_ips", "tailscaleIPs"),
   ("update_available", "updateAvailable"), ("user", "user")]

/-- `User` field/alias table. -/
def userAliases : List (String × String) :=
  [("id", "id"), ("login_name", "loginName"), ("display_name", "displayName"),
   ("profile_pic_url", "profilePicUrl"), ("tailnet_id", "tailnetId"),
   ("created", "created"), ("type", "type"), ("role", "role"),
   ("status", "status"), ("device_count", "deviceCount"),
   ("last_seen", "lastSeen"), ("currently_connected", "currentlyConnected")]

/-- `ACL` field/alias table. -/
def aclAliases : List (String × String) :=
  [("acls", "acls"), ("groups", "groups"), ("hosts", "hosts"),
   ("tag_owners", "tagOwners"), ("tests", "tests"), ("ssh", "ssh"),
   ("node_attrs", "nodeAttrs")]

/-- `DNSConfig` field/alias table. -/
def dnsConfigAliases : List (String × String) :=
  [("domains", "domains"), ("magic_dns", "magicDNS"),
   ("nameservers", "nameservers"), ("override_local_dns", "overrideLocalDNS"),
   ("routes", "routes")]

/-- `DeviceRoutes` field/alias table. -/
def deviceRoutesAliases : List (String × String) :=
  [("advertised_routes", "advertisedRoutes"),
   ("enabled_routes", "enabledRoutes")]

/-- `DevicePostureAttributes` field/alias table. -/
def devicePostureAttributesAliases : List (String × String) :=
  [("attributes", "attributes")]

/-- `DeviceInvite` field/alias table. -/
def deviceInviteAliases : List (String × String) :=
  [("id", "id"), ("created", "created"), ("email", "email"),
   ("multi_use", "multiUse"), ("allow_exit_node", "allowExitNode"),
   ("used", "used"), ("device_id", "deviceId"), ("expires", "expires")]

/-- `UserInvite` field/alias table. -/
def userInviteAliases : List (String × String) :=
  [("id", "id"), ("email", "email"), ("role", "role"),
   ("created_at", "createdAt"), ("expires_at", "expiresAt"),
   ("accepted", "accepted"), ("sent_at", "sentAt")]

/-- `ApiKey` field/alias table. -/
def apiKeyAliases : List (String × String) :=
  [("id", "id"), ("description", "description"),
   ("capabilities", "capabilities"), ("created", "created"),
   ("expires", "expires"), ("revoked", "revoked")]

/-- `AuthKey` field/alias table. -/
def authKeyAliases : List (String × String) :=
  [("id", "id"), ("description", "description"), ("created", "created"),
   ("expires", "expires"), ("capabilities", "capabilities"),
   ("revoked", "revoked")]

/-- `LogEntry` field/alias table. -/
def logEntryAliases : List (String × String) :=
  [("timestamp", "timestamp"), ("type", "type"), ("message", "message"),
   ("data", "data")]

/-- `ContactPreference` field/alias table. -/
def contactPreferenceAliases : List (String × String) :=
  [("security", "security"), ("support", "support"), ("billing", "billing")]

/-- `Webhook` field/alias table. -/
def webhookAliases : List (String × String) :=
  [("endpoint_id", "endpointId"), ("endpoint_url", "endpointUrl"),
   ("provider_type", "providerType"), ("subscriptions", "subscriptions"),
   ("created", "created"), ("last_triggered", "lastTriggered"),
   ("secret", "secret")]

/-- `TailnetSettings` field/alias table. -/
def tailnetSettingsAliases : List (String × String) :=
  [("devices_approval_on", "devicesApprovalOn"),
   ("devices_auto_updates_on", "devicesAutoUpdatesOn"),
   ("devices_key_duration_days", "devicesKeyDurationDays"),
   ("network_flow_logging_on", "networkFlowLoggingOn"),
   ("regional_routing_on", "regionalRoutingOn"),
   ("route_all_on", "routeAllOn"), ("magic_dns_enabled", "magicDNSEnabled"),
   ("enhanced_security_features_on", "enhancedSecurityFeaturesOn")]

/-- `PostureIntegration` field/alias table. -/
def postureIntegrationAliases : List (String × String) :=
  [("id", "id"), ("provider", "provider"), ("created_at", "createdAt"),
   ("config", "config")]

/-- Every model's field/alias table. -/
def allAliasTables : List (List (String × String)) :=
  [deviceAliases, userAliases, aclAliases, dnsConfigAliases,
   deviceRoutesAliases, devicePostureAttributesAliases, deviceInviteAliases,
   userInviteAliases, apiKeyAliases, authKeyAliases, logEntryAliases,
   contactPreferenceAliases, webhookAliases, tailnetSettingsAliases,
   postureIntegrationAliases]

/-- Encode direction of a table: typed field name to declared wire name. -/
def wireOf (t : List (String × String)) (f : String) : Option String :=
  t.lookup f

/-- Decode direction of a table: declared wire name back to the typed
field name. -/
def fieldOf (t : List (String × String)) (w : String) : Option String :=
  (t.map (fun p => (p.2, p.1))).lookup w

/-! ## Helper lemmas -/

/-- Destructor for a successful `Except` bind. -/
theorem exceptBindOk {α β : Type} {x : Except PyError α} {f : α → Except PyError β}
    {b : β} (h : (x >>= f) = .ok b) : ∃ a, x = .ok a ∧ f a = .ok b := by
  cases x with
  | ok a => exact ⟨a, rfl, h⟩
  | error e => simp [Bind.bind, Except.bind] at h

/-- `raise_for_status` raises on every 4xx/5xx status. -/
theorem raiseForStatusFails_of_err {s : Nat} (h4 : 400 ≤ s) (h6 : s < 600) :
    raiseForStatusFails s = true := by
  simp only [raiseForStatusFails, Bool.or_eq_true, Bool.and_eq_true,
    decide_eq_true_eq]
  omega

/-- `raise_for_status` does not raise on a 2xx status. -/
theorem raiseForStatusFails_of_2xx {s : Nat} (h2 : 200 ≤ s) (h3 : s < 300) :
    raiseForStatusFails s = false := by
  simp only [raiseForStatusFails, Bool.or_eq_false_iff, Bool.and_eq_false_iff,
    decide_eq_false_iff_not]
  omega

/-! ## Claims -/

/-- C2 counterexample: a `304 Not Modified` response is not 2xx, yet
`raise_for_status` does not raise for it, so `_request` returns its parsed
body instead of raising a `TspyAPIError`. -/
theorem spec_c2_counterexample :
    handleNetResult (.response ⟨304, true, some (Json.obj [])⟩) =
      .ok (some (Json.obj [])) ∧ ¬(200 ≤ 304 ∧ 304 < 300) := by
  exact ⟨rfl, by decide⟩

/-- C2 (amended from "non-2xx" to "4xx/5xx, i.e. the statuses
`raise_for_status` treats as client/server error"): such a response raises
exactly one typed API error whose `status_code` is the numeric HTTP status;
if the error body parses as JSON the error's `response_data` is that parsed
body, and if it does not parse, `response_data` is `None` while the status
is still set — no secondary exception escapes the best-effort parse. -/
theorem spec_c2 (resp : HttpResponse)
    (h4 : 400 ≤ resp.status) (h6 : resp.status < 600) :
    (∀ j : Json, resp.jsonBody = some j →
      handleNetResult (.response resp) =
        .error { status_code := some resp.status, response_data := jsonToPy j }) ∧
    (resp.jsonBody = none →
      handleNetResult (.response resp) =
        .error { status_code := some resp.status, response_data := none }) := by
  have hr := raiseForStatusFails_of_err h4 h6
  constructor
  · intro j hj
    simp [handleNetResult, hr, hj]
  · intro hj
    simp [handleNetResult, hr, hj]

/-- C2 witness: the spec's own scenario, a 404 with body
`{"message": "not found"}`. -/
theorem spec_c2_witness :
    handleNetResult
        (.response ⟨404, true, some (Json.obj [("message", Json.str "not found")])⟩) =
      .error { status_code := some 404,
               response_data := some (Json.obj [("message", Json.str "not found")]) } :=
  (spec_c2 ⟨404, true, some (Json.obj [("message", Json.str "not found")])⟩
    (by decide) (by decide)).1 _ rfl

/-- C3: a transport-level `RequestException` (connection, DNS, timeout,
malformed response), and a JSON-decode failure of a 2xx body that was
expected to parse (`response.content` nonempty), both raise the same typed
`TspyAPIError` with `status_code = None` — by construction of the
embedding no other exception type can escape `_request`. -/
theorem spec_c3 :
    (handleNetResult .failure =
      .error { status_code := none, response_data := none }) ∧
    (∀ s : Nat, 200 ≤ s → s < 300 →
      handleNetResult (.response ⟨s, true, none⟩) =
        .error { status_code := none, response_data := none }) := by
  constructor
  · rfl
  · intro s h2 h3
    simp [handleNetResult, raiseForStatusFails_of_2xx h2 h3]

/-- C3 witness: a 200 response whose nonempty body is not valid JSON. -/
theorem spec_c3_witness :
    handleNetResult (.response ⟨200, true, none⟩) =
      .error { status_code := none, response_data := none } :=
  spec_c3.2 200 (by decide) (by decide)

/-- C6: a 2xx response with an empty body yields the `None` sentinel from
`_request` — whatever a JSON parse of the body would have given (no parse is
attempted), and distinct from an empty mapping — and `delete_device` against
such a response returns normally with no value, issuing exactly one
`DELETE /device/{id}` request. -/
theorem spec_c6 :
    (∀ (s : Nat) (jb : Option Json), 200 ≤ s → s < 300 →
      handleNetResult (.response ⟨s, false, jb⟩) = .ok none ∧
      (Except.ok (ε := TspyAPIError) (none : Option Json) ≠
        .ok (some (Json.obj [])))) ∧
    (∀ (c : TailscaleClient) (device_id : String) (s : Nat) (jb : Option Json),
      200 ≤ s → s < 300 →
      c.delete_device device_id (fun _ => .response ⟨s, false, jb⟩) =
        (.ok (), [{ method := "DELETE",
                    url := c.base_url ++ ("/device/" ++ device_id),
                    params := none, body := none }])) := by
  constructor
  · intro s jb h2 h3
    refine ⟨?_, by simp⟩
    simp [handleNetResult, raiseForStatusFails_of_2xx h2 h3]
  · intro c device_id s jb h2 h3
    simp [TailscaleClient.delete_device, TailscaleClient.reqPy,
      TailscaleClient.req, liftAPI, handleNetResult,
      raiseForStatusFails_of_2xx h2 h3, Except.map]

/-- C6 witness: `delete_device` against a concrete `204`-style empty
response. -/
theorem spec_c6_witness :
    (TailscaleClient.make "key").delete_device "node1"
        (fun _ => .response ⟨200, false, none⟩) =
      (.ok (), [{ method := "DELETE",
                  url := (TailscaleClient.make "key").base_url ++ ("/device/" ++ "node1"),
                  params := none, body := none }]) :=
  spec_c6.2 (TailscaleClient.make "key") "node1" 200 none (by decide) (by decide)

/-- C10: `list_api_keys` and `list_auth_keys` are extensionally equal: for
every client state and every network behaviour they produce identical
results and identical traces, and the one request they issue is
`GET {base}/tailnet/{tailnet}/keys` with no query and no body (both unwrap
the same `"keys"` field by definition). -/
theorem spec_c10 :
    (∀ (c : TailscaleClient) (oracle : Request → NetResult),
      c.list_api_keys oracle = c.list_auth_keys oracle) ∧
    (∀ (c : TailscaleClient) (oracle : Request → NetResult),
      (c.list_api_keys oracle).2 =
        [{ method := "GET",
           url := c.base_url ++ ("/tailnet/" ++ c.tailnet ++ "/keys"),
           params := none, body := none }]) := by
  exact ⟨fun c oracle => rfl, fun c oracle => rfl⟩

/-- C8: the constructor's tailnet defaults to the `"-"` sentinel;
`list_devices`/`get_device` default to requesting the full field set
(`fields=all` in the query); `create_api_key` and `create_auth_key` default
`expirySeconds` to 90 days in seconds (7776000); `authorize_device` defaults
to sending `authorized=true`; and `create_auth_key` defaults to
`ephemeral=false`, `reusable=false` and an empty tag list. -/
theorem spec_c8 :
    (∀ k : String, (TailscaleClient.make k).tailnet = "-") ∧
    (defaultExpirySeconds = 7776000) ∧
    (∀ (c : TailscaleClient) (oracle : Request → NetResult),
      c.list_devices' oracle = c.list_devices (some "all") oracle ∧
      (c.list_devices' oracle).2 =
        [{ method := "GET",
           url := c.base_url ++ ("/tailnet/" ++ c.tailnet ++ "/devices"),
           params := some [("fields", "all")], body := none }]) ∧
    (∀ (c : TailscaleClient) (dev : String) (oracle : Request → NetResult),
      (c.get_device' dev oracle).2 =
        [{ method := "GET", url := c.base_url ++ ("/device/" ++ dev),
           params := some [("fields", "all")], body := none }]) ∧
    (∀ (c : TailscaleClient) (dev : String) (oracle : Request → NetResult),
      (c.authorize_device' dev oracle).2 =
        [{ method := "POST",
           url := c.base_url ++ ("/device/" ++ dev ++ "/authorized"),
           params := none,
           body := some (Json.obj [("authorized", Json.bool true)]) }]) ∧
    (∀ (c : TailscaleClient) (caps : List (String × Json))
        (oracle : Request → NetResult),
      (c.create_api_key' caps oracle).2 =
        [{ method := "POST",
           url := c.base_url ++ ("/tailnet/" ++ c.tailnet ++ "/keys"),
           params := none,
           body := some (Json.obj [("capabilities", Json.obj caps),
                                   ("expirySeconds", Json.num 7776000)]) }]) ∧
    (∀ (c : TailscaleClient) (oracle : Request → NetResult),
      (c.create_auth_key' oracle).2 =
        [{ method := "POST",
           url := c.base_url ++ ("/tailnet/" ++ c.tailnet ++ "/keys"),
           params := none,
           body := some (Json.obj
             [("capabilities", Json.obj
                [("devices", Json.obj
                  [("create", Json.obj
                    [("ephemeral", Json.bool false),
                     ("reusable", Json.bool false),
                     ("tags", Json.arr [])])])]),
              ("expirySeconds", Json.num 7776000)]) }]) := by
  refine ⟨fun k => rfl, by decide, fun c oracle => ⟨rfl, rfl⟩,
    fun c dev oracle => rfl, fun c dev oracle => rfl,
    fun c caps oracle => rfl, fun c oracle => rfl⟩

/-- C9: for the body-building methods with optional arguments, inclusion of
an optional body field follows the argument's truthiness: an explicitly
passed falsy value (empty string, empty list) produces the same call as
omitting the argument, and the corresponding key is absent from the body. -/
theorem spec_c9 :
    (∀ (c : TailscaleClient) (dev k : String) (v : Json)
        (oracle : Request → NetResult),
      c.set_device_attribute dev k v (some "") (some "") oracle =
        c.set_device_attribute dev k v none none oracle ∧
      (setDeviceAttributeBody v (some "") (some "")).lookup "expiry" = none ∧
      (setDeviceAttributeBody v (some "") (some "")).lookup "comment" = none) ∧
    (∀ (c : TailscaleClient) (dev : String) (mu ae : Bool)
        (oracle : Request → NetResult),
      c.create_device_invite dev mu ae (some "") oracle =
        c.create_device_invite dev mu ae none oracle ∧
      (createDeviceInviteBody mu ae (some "")).lookup "email" = none) ∧
    (∀ (c : TailscaleClient) (caps : List (String × Json)) (es : Int)
        (oracle : Request → NetResult),
      c.create_api_key caps es (some "") oracle =
        c.create_api_key caps es none oracle ∧
      (createApiKeyBody caps es (some "")).lookup "description" = none) ∧
    (∀ (c : TailscaleClient) (e r : Bool) (es : Int)
        (oracle : Request → NetResult),
      c.create_auth_key e r es (some "") (some []) oracle =
        c.create_auth_key e r es none none oracle ∧
      (createAuthKeyBody e r es (some "") (some [])).lookup "description" = none) ∧
    (∀ (c : TailscaleClient) (url pt : String) (oracle : Request → NetResult),
      c.create_webhook url pt (some []) oracle =
        c.create_webhook url pt none oracle ∧
      (createWebhookBody url pt (some [])).lookup "subscriptions" = none) := by
  refine ⟨fun c dev k v oracle => ⟨rfl, rfl, rfl⟩,
    fun c dev mu ae oracle => ⟨rfl, rfl⟩,
    fun c caps es oracle => ⟨rfl, rfl⟩,
    fun c e r es oracle => ⟨rfl, rfl⟩,
    fun c url pt oracle => ⟨rfl, rfl⟩⟩

/-- C1 counterexample: `list_devices` against the "no content" sentinel (a
2xx response with an empty body) raises `AttributeError` from
`None.get("devices", [])` instead of returning an empty sequence. -/
theorem spec_c1_counterexample :
    ((TailscaleClient.make "k").list_devices (some "all")
        (fun _ => .response ⟨200, false, none⟩)).1 =
      .error PyError.attributeError := rfl

/-- C1 (amended): all nine list-returning operations return an empty
sequence when the named collection field is absent from a decoded mapping
response, but only `list_user_invites`, `list_webhooks` and
`get_configuration_audit_logs` guard the "no content" sentinel — the other
six (`list_devices`, `list_users`, `list_device_invites`, `list_api_keys`,
`list_posture_integrations`, `get_network_logs`) raise an `AttributeError`
on it. -/
theorem spec_c1 (c : TailscaleClient) (dev : String)
    (fs : List (String × Json))
    (hdev : fs.lookup "devices" = none) (husers : fs.lookup "users" = none)
    (hinv : fs.lookup "invites" = none) (hkeys : fs.lookup "keys" = none)
    (hweb : fs.lookup "webhooks" = none)
    (hint : fs.lookup "integrations" = none)
    (hlogs : fs.lookup "logs" = none) :
    (let o := fun _ : Request => NetResult.response ⟨200, true, some (Json.obj fs)⟩
     ((c.list_devices (some "all") o).1 = .ok []) ∧
     ((c.list_users o).1 = .ok []) ∧
     ((c.list_user_invites o).1 = .ok (some (Json.arr []))) ∧
     ((c.list_device_invites dev o).1 = .ok (some (Json.arr []))) ∧
     ((c.list_api_keys o).1 = .ok (some (Json.arr []))) ∧
     ((c.list_webhooks o).1 = .ok (some (Json.arr []))) ∧
     ((c.list_posture_integrations o).1 = .ok (some (Json.arr []))) ∧
     ((c.get_network_logs (some "t0") none o).1 = .ok (some (Json.arr []))) ∧
     ((c.get_configuration_audit_logs "t0" none none none none o).1 =
        .ok (some (Json.arr [])))) ∧
    (let o0 := fun _ : Request => NetResult.response ⟨200, false, none⟩
     ((c.list_user_invites o0).1 = .ok (some (Json.arr []))) ∧
     ((c.list_webhooks o0).1 = .ok (some (Json.arr []))) ∧
     ((c.get_configuration_audit_logs "t0" none none none none o0).1 =
        .ok (some (Json.arr []))) ∧
     ((c.list_devices (some "all") o0).1 = .error .attributeError) ∧
     ((c.list_users o0).1 = .error .attributeError) ∧
     ((c.list_device_invites dev o0).1 = .error .attributeError) ∧
     ((c.list_api_keys o0).1 = .error .attributeError) ∧
     ((c.list_posture_integrations o0).1 = .error .attributeError) ∧
     ((c.get_network_logs (some "t0") none o0).1 = .error .attributeError)) := by
  constructor
  · refine ⟨?_, ?_, ?_, ?_, ?_, ?_, ?_, ?_, ?_⟩ <;>
      simp [TailscaleClient.list_devices, TailscaleClient.list_users,
        TailscaleClient.list_user_invites, TailscaleClient.list_device_invites,
        TailscaleClient.list_api_keys, TailscaleClient.list_webhooks,
        TailscaleClient.list_posture_integrations,
        TailscaleClient.get_network_logs,
        TailscaleClient.get_configuration_audit_logs,
        TailscaleClient.reqPy, TailscaleClient.req, liftAPI, handleNetResult,
        raiseForStatusFails, jsonToPy, pyGet, pyIterList, pyTruthy, mapExcept,
        Bind.bind, Except.bind, Pure.pure, Except.pure,
        hdev, husers, hinv, hkeys, hweb, hint, hlogs]
  · refine ⟨?_, ?_, ?_, ?_, ?_, ?_, ?_, ?_, ?_⟩ <;> rfl

/-- Shape of a successful `Device` decode: each required field and each
validated timestamp field was decoded from its declared wire key. -/
theorem Device_decode_ok_fields {fs : List (String × Json)} {d : Device}
    (h : Device.decode (Json.obj fs) = .ok d) :
    reqStrV (fs.lookup "id") "id" = .ok d.id ∧
    reqStrListV (fs.lookup "addresses") "addresses" = .ok d.addresses ∧
    reqBoolV (fs.lookup "authorized") "authorized" = .ok d.authorized ∧
    reqStrV (fs.lookup "hostname") "hostname" = .ok d.hostname ∧
    reqStrV (fs.lookup "name") "name" = .ok d.name ∧
    reqStrV (fs.lookup "os") "os" = .ok d.os ∧
    reqStrV (fs.lookup "user") "user" = .ok d.user ∧
    optDateTimeEmptyV (fs.lookup "created") "created" = .ok d.created ∧
    optDateTimeEmptyV (fs.lookup "expires") "expires" = .ok d.expires ∧
    optDateTimeEmptyV (fs.lookup "lastSeen") "lastSeen" = .ok d.last_seen := by
  simp only [Device.decode] at h
  obtain ⟨id, hid, h⟩ := exceptBindOk h
  obtain ⟨addresses, haddr, h⟩ := exceptBindOk h
  obtain ⟨authorized, hauth, h⟩ := exceptBindOk h
  obtain ⟨bp, hbp, h⟩ := exceptBindOk h
  obtain ⟨bic, hbic, h⟩ := exceptBindOk h
  obtain ⟨cc, hcc, h⟩ := exceptBindOk h
  obtain ⟨cv, hcv, h⟩ := exceptBindOk h
  obtain ⟨created, hcreated, h⟩ := exceptBindOk h
  obtain ⟨expires, hexpires, h⟩ := exceptBindOk h
  obtain ⟨hostname, hhost, h⟩ := exceptBindOk h
  obtain ⟨ie, hie, h⟩ := exceptBindOk h
  obtain ⟨ked, hked, h⟩ := exceptBindOk h
  obtain ⟨ls, hls, h⟩ := exceptBindOk h
  obtain ⟨mkey, hmkey, h⟩ := exceptBindOk h
  obtain ⟨name, hname, h⟩ := exceptBindOk h
  obtain ⟨ni, hni, h⟩ := exceptBindOk h
  obtain ⟨nk, hnk, h⟩ := exceptBindOk h
  obtain ⟨os, hos, h⟩ := exceptBindOk h
  obtain ⟨tags, htags, h⟩ := exceptBindOk h
  obtain ⟨tle, htle, h⟩ := exceptBindOk h
  obtain ⟨tlk, htlk, h⟩ := exceptBindOk h
  obtain ⟨tips, htips, h⟩ := exceptBindOk h
  obtain ⟨ua, hua, h⟩ := exceptBindOk h
  obtain ⟨user, huser, h⟩ := exceptBindOk h
  simp only [Pure.pure, Except.pure, Except.ok.injEq] at h
  subst h
  exact ⟨hid, haddr, hauth, hhost, hname, hos, huser, hcreated, hexpires, hls⟩

/-- Shape of a successful `User` decode. -/
theorem User_decode_ok_fields {fs : List (String × Json)} {u : User}
    (h : User.decode (Json.obj fs) = .ok u) :
    reqStrV (fs.lookup "id") "id" = .ok u.id ∧
    reqStrV (fs.lookup "loginName") "loginName" = .ok u.login_name ∧
    reqStrV (fs.lookup "displayName") "displayName" = .ok u.display_name ∧
    optDateTimeEmptyV (fs.lookup "created") "created" = .ok u.created ∧
    optDateTimeEmptyV (fs.lookup "lastSeen") "lastSeen" = .ok u.last_seen := by
  simp only [User.decode] at h
  obtain ⟨id, hid, h⟩ := exceptBindOk h
  obtain ⟨ln, hln, h⟩ := exceptBindOk h
  obtain ⟨dn, hdn, h⟩ := exceptBindOk h
  obtain ⟨ppu, hppu, h⟩ := exceptBindOk h
  obtain ⟨ti, hti, h⟩ := exceptBindOk h
  obtain ⟨created, hcreated, h⟩ := exceptBindOk h
  obtain ⟨ty, hty, h⟩ := exceptBindOk h
  obtain ⟨ro, hro, h⟩ := exceptBindOk h
  obtain ⟨st, hst, h⟩ := exceptBindOk h
  obtain ⟨dc, hdc, h⟩ := exceptBindOk h
  obtain ⟨ls, hls, h⟩ := exceptBindOk h
  obtain ⟨cco, hcco, h⟩ := exceptBindOk h
  simp only [Pure.pure, Except.pure, Except.ok.injEq] at h
  subst h
  exact ⟨hid, hln, hdn, hcreated, hls⟩

/-- Shape of a successful `DNSConfig` decode: `magic_dns` was decoded from
its required wire key `magicDNS`. -/
theorem DNSConfig_decode_ok_fields {fs : List (String × Json)} {x : DNSConfig}
    (h : DNSConfig.decode (Json.obj fs) = .ok x) :
    reqBoolV (fs.lookup "magicDNS") "magicDNS" = .ok x.magic_dns := by
  simp only [DNSConfig.decode] at h
  obtain ⟨dom, hdom, h⟩ := exceptBindOk h
  obtain ⟨md, hmd, h⟩ := exceptBindOk h
  obtain ⟨ns, hns, h⟩ := exceptBindOk h
  obtain ⟨ov, hov, h⟩ := exceptBindOk h
  obtain ⟨ro, hro, h⟩ := exceptBindOk h
  simp only [Pure.pure, Except.pure, Except.ok.injEq] at h
  subst h
  exact hmd

/-- C4: for the entity types the operations decode, a `created` / `expires` /
`last_seen`-style timestamp that arrives as the empty string decodes to an
absent value (`None`), not a parse error: the field decoder maps `""` to
`None`, any successful `Device`/`User` decode whose wire mapping carried
`""` has the corresponding field absent, and a concrete device response with
all three timestamps empty decodes successfully. -/
theorem spec_c4 :
    (optDateTimeEmptyV (some (Json.str "")) "created" = .ok none) ∧
    (∀ (fs : List (String × Json)) (d : Device),
      Device.decode (Json.obj fs) = .ok d →
      (fs.lookup "created" = some (Json.str "") → d.created = none) ∧
      (fs.lookup "expires" = some (Json.str "") → d.expires = none) ∧
      (fs.lookup "lastSeen" = some (Json.str "") → d.last_seen = none)) ∧
    (∀ (fs : List (String × Json)) (u : User),
      User.decode (Json.obj fs) = .ok u →
      (fs.lookup "created" = some (Json.str "") → u.created = none) ∧
      (fs.lookup "lastSeen" = some (Json.str "") → u.last_seen = none)) ∧
    (Device.decode (Json.obj
        [("id", Json.str "d1"), ("addresses", Json.arr []),
         ("authorized", Json.bool true), ("hostname", Json.str "h"),
         ("name", Json.str "h"), ("os", Json.str "linux"),
         ("user", Json.str "u"), ("created", Json.str ""),
         ("expires", Json.str ""), ("lastSeen", Json.str "")]) =
      .ok { id := "d1", addresses := [], authorized := true,
            blocked_ports := none, blocks_incoming_connections := none,
            client_connectivity := none, client_version := none,
            created := none, expires := none, hostname := "h",
            is_external := none, key_expiry_disabled := none,
            last_seen := none, machine_key := none, name := "h",
            node_id := none, node_key := none, os := "linux", tags := none,
            tailnet_lock_error := none, tailnet_lock_key := none,
            tailscale_ips := none, update_available := none, user := "u" }) := by
  refine ⟨rfl, ?_, ?_, rfl⟩
  · intro fs d h
    obtain ⟨-, -, -, -, -, -, -, hc, he, hl⟩ := Device_decode_ok_fields h
    refine ⟨fun hk => ?_, fun hk => ?_, fun hk => ?_⟩
    · rw [hk] at hc
      injection hc with h3
      exact h3.symm
    · rw [hk] at he
      injection he with h3
      exact h3.symm
    · rw [hk] at hl
      injection hl with h3
      exact h3.symm
  · intro fs u h
    obtain ⟨-, -, -, hc, hl⟩ := User_decode_ok_fields h
    refine ⟨fun hk => ?_, fun hk => ?_⟩
    · rw [hk] at hc
      injection hc with h3
      exact h3.symm
    · rw [hk] at hl
      injection hl with h3
      exact h3.symm

/-- C4 witness: the concrete empty-string-timestamp device of the claim,
with `created` decoded as absent. -/
theorem spec_c4_witness :
    ({ id := "d1", addresses := [], authorized := true,
       blocked_ports := none, blocks_incoming_connections := none,
       client_connectivity := none, client_version := none,
       created := none, expires := none, hostname := "h",
       is_external := none, key_expiry_disabled := none,
       last_seen := none, machine_key := none, name := "h",
       node_id := none, node_key := none, os := "linux", tags := none,
       tailnet_lock_error := none, tailnet_lock_key := none,
       tailscale_ips := none, update_available := none,
       user := "u" } : Device).created = none :=
  ((spec_c4.2.1
      [("id", Json.str "d1"), ("addresses", Json.arr []),
       ("authorized", Json.bool true), ("hostname", Json.str "h"),
       ("name", Json.str "h"), ("os", Json.str "linux"),
       ("user", Json.str "u"), ("created", Json.str ""),
       ("expires", Json.str ""), ("lastSeen", Json.str "")]
      _ rfl).1 rfl)

/-- C5: a response mapping that misses a declared-required field (or holds a
wrongly typed value, e.g. a number for `id`) never decodes to an entity —
the pydantic `ValidationError` is surfaced, not a partially populated
object — and `get_device` returns exactly the decode result of the response
mapping, so that error reaches the caller. -/
theorem spec_c5 :
    (∀ fs : List (String × Json),
      (fs.lookup "id" = none ∨ fs.lookup "addresses" = none ∨
       fs.lookup "authorized" = none ∨ fs.lookup "hostname" = none ∨
       fs.lookup "name" = none ∨ fs.lookup "os" = none ∨
       fs.lookup "user" = none) →
      ∀ d, Device.decode (Json.obj fs) ≠ .ok d) ∧
    (∀ fs : List (String × Json),
      (fs.lookup "id" = none ∨ fs.lookup "loginName" = none ∨
       fs.lookup "displayName" = none) →
      ∀ u, User.decode (Json.obj fs) ≠ .ok u) ∧
    (∀ fs : List (String × Json), fs.lookup "magicDNS" = none →
      ∀ x, DNSConfig.decode (Json.obj fs) ≠ .ok x) ∧
    (∀ (fs : List (String × Json)) (n : Int),
      fs.lookup "id" = some (Json.num n) →
      ∀ d, Device.decode (Json.obj fs) ≠ .ok d) ∧
    (∀ (c : TailscaleClient) (dev : String) (fs : List (String × Json)),
      (c.get_device dev (some "all")
          (fun _ => .response ⟨200, true, some (Json.obj fs)⟩)).1 =
        Device.decode (Json.obj fs)) := by
  refine ⟨?_, ?_, ?_, ?_, ?_⟩
  · intro fs hor d h
    obtain ⟨h1, h2, h3, h4, h5, h6, h7, -, -, -⟩ := Device_decode_ok_fields h
    rcases hor with hk | hk | hk | hk | hk | hk | hk
    · rw [hk] at h1; exact absurd h1 (by simp [reqStrV])
    · rw [hk] at h2; exact absurd h2 (by simp [reqStrListV])
    · rw [hk] at h3; exact absurd h3 (by simp [reqBoolV])
    · rw [hk] at h4; exact absurd h4 (by simp [reqStrV])
    · rw [hk] at h5; exact absurd h5 (by simp [reqStrV])
    · rw [hk] at h6; exact absurd h6 (by simp [reqStrV])
    · rw [hk] at h7; exact absurd h7 (by simp [reqStrV])
  · intro fs hor u h
    obtain ⟨h1, h2, h3, -, -⟩ := User_decode_ok_fields h
    rcases hor with hk | hk | hk
    · rw [hk] at h1; exact absurd h1 (by simp [reqStrV])
    · rw [hk] at h2; exact absurd h2 (by simp [reqStrV])
    · rw [hk] at h3; exact absurd h3 (by simp [reqStrV])
  · intro fs hk x h
    have h1 := DNSConfig_decode_ok_fields h
    rw [hk] at h1
    exact absurd h1 (by simp [reqBoolV])
  · intro fs n hk d h
    obtain ⟨h1, -, -, -, -, -, -, -, -, -⟩ := Device_decode_ok_fields h
    rw [hk] at h1
    exact absurd h1 (by simp [reqStrV])
  · intro c dev fs
    simp [TailscaleClient.get_device, TailscaleClient.reqPy,
      TailscaleClient.req, liftAPI, handleNetResult, raiseForStatusFails,
      jsonToPy, Bind.bind, Except.bind]

/-- C5 witness: the empty response mapping fails to decode as a `Device`. -/
theorem spec_c5_witness :
    Device.decode (Json.obj []) ≠
      .ok { id := "", addresses := [], authorized := false,
            blocked_ports := none, blocks_incoming_connections := none,
            client_connectivity := none, client_version := none,
            created := none, expires := none, hostname := "",
            is_external := none, key_expiry_disabled := none,
            last_seen := none, machine_key := none, name := "",
            node_id := none, node_key := none, os := "", tags := none,
            tailnet_lock_error := none, tailnet_lock_key := none,
            tailscale_ips := none, update_available := none, user := "" } :=
  spec_c5.1 [] (Or.inl rfl) _

/-! Round-trip lemmas: each field decoder inverts the corresponding encoder. -/

/-- A valid datetime string is nonempty. -/
theorem dtValid_not_empty {s : String} (h : isDatetimeStr s = true) :
    s.isEmpty = false := by
  rcases hs : s.isEmpty
  · rfl
  · exfalso
    have hempty : s = "" := (String.isEmpty_iff s).mp hs
    subst hempty
    simp [isDatetimeStr] at h

/-- Decoding inverts encoding for a required `str` field. -/
theorem reqStrV_rt (s k : String) : reqStrV (some (Json.str s)) k = .ok s := rfl

/-- Decoding inverts encoding for a required `bool` field. -/
theorem reqBoolV_rt (b : Bool) (k : String) :
    reqBoolV (some (Json.bool b)) k = .ok b := rfl

/-- Decoding inverts encoding for an `Optional[str]` field. -/
theorem optStrV_rt (o : Option String) (k : String) :
    optStrV (some (encOptStr o)) k = .ok o := by
  cases o <;> rfl

/-- Decoding inverts encoding for an `Optional[bool]` field. -/
theorem optBoolV_rt (o : Option Bool) (k : String) :
    optBoolV (some (encOptBool o)) k = .ok o := by
  cases o <;> rfl

/-- Decoding inverts encoding for an `Optional[int]` field. -/
theorem optIntV_rt (o : Option Int) (k : String) :
    optIntV (some (encOptInt o)) k = .ok o := by
  cases o <;> rfl

/-- Decoding inverts encoding for an `Optional[Dict[str, Any]]` field. -/
theorem optObjV_rt (o : Option (List (String × Json))) (k : String) :
    optObjV (some (encOptObj o)) k = .ok o := by
  cases o <;> rfl

/-- Decoding inverts encoding for a required `Dict[str, Any]` field. -/
theorem reqObjV_rt (fs : List (String × Json)) (k : String) :
    reqObjV (some (Json.obj fs)) k = .ok fs := rfl

/-- Element-wise decoding inverts element-wise string encoding. -/
theorem mapExcept_str_rt (k : String) (l : List String) :
    mapExcept (strElem k) (l.map Json.str) = .ok l := by
  induction l with
  | nil => rfl
  | cons x xs ih =>
    simp [mapExcept, strElem, ih, Bind.bind, Except.bind, Pure.pure, Except.pure]

/-- Decoding inverts encoding for a required `List[str]` field. -/
theorem reqStrListV_rt (l : List String) (k : String) :
    reqStrListV (some (encStrList l)) k = .ok l := by
  simp [reqStrListV, encStrList, mapExcept_str_rt]

/-- Decoding inverts encoding for an `Optional[List[str]]` field. -/
theorem optStrListV_rt (o : Option (List String)) (k : String) :
    optStrListV (some (encOptStrList o)) k = .ok o := by
  cases o with
  | none => rfl
  | some l => simp [optStrListV, encOptStrList, encStrList, mapExcept_str_rt, Except.map]

/-- Decoding inverts encoding for a defaulted `Optional[List[str]]` field. -/
theorem optStrListDV_rt (o : Option (List String)) (k : String) :
    optStrListDV (some (encOptStrList o)) k = .ok o := by
  cases o with
  | none => rfl
  | some l => simp [optStrListDV, encOptStrList, encStrList, mapExcept_str_rt, Except.map]

/-- Element-wise decoding inverts element-wise integer encoding. -/
theorem mapExcept_int_rt (k : String) (l : List Int) :
    mapExcept (intElem k) (l.map Json.num) = .ok l := by
  induction l with
  | nil => rfl
  | cons x xs ih =>
    simp [mapExcept, intElem, ih, Bind.bind, Except.bind, Pure.pure, Except.pure]

/-- Decoding inverts encoding for an `Optional[List[int]]` field. -/
theorem optIntListV_rt (o : Option (List Int)) (k : String) :
    optIntListV (some (encOptIntList o)) k = .ok o := by
  cases o with
  | none => rfl
  | some l => simp [optIntListV, encOptIntList, mapExcept_int_rt, Except.map]

/-- Element-wise decoding inverts element-wise mapping encoding. -/
theorem mapExcept_obj_rt (k : String) (l : List (List (String × Json))) :
    mapExcept (objElem k) (l.map Json.obj) = .ok l := by
  induction l with
  | nil => rfl
  | cons x xs ih =>
    simp [mapExcept, objElem, ih, Bind.bind, Except.bind, Pure.pure, Except.pure]

/-- Decoding inverts encoding for an `Optional[List[Dict[str, Any]]]` field. -/
theorem optObjListV_rt (o : Option (List (List (String × Json)))) (k : String) :
    optObjListV (some (encOptObjList o)) k = .ok o := by
  cases o with
  | none => rfl
  | some l => simp [optObjListV, encOptObjList, mapExcept_obj_rt, Except.map]

/-- Decoding inverts encoding for a defaulted `Optional[List[Dict]]` field. -/
theorem optObjListDV_rt (o : Option (List (List (String × Json)))) (k : String) :
    optObjListDV (some (encOptObjList o)) k = .ok o := by
  cases o with
  | none => rfl
  | some l => simp [optObjListDV, encOptObjList, mapExcept_obj_rt, Except.map]

/-- Entry-wise decoding inverts entry-wise encoding of a `Dict[str, str]`. -/
theorem mapExcept_strEntry_rt (k : String) (fs : List (String × String)) :
    mapExcept (strMapEntry k) (fs.map (fun p => (p.1, Json.str p.2))) = .ok fs := by
  induction fs with
  | nil => rfl
  | cons x xs ih =>
    obtain ⟨a, b⟩ := x
    simp [mapExcept, strMapEntry, ih, Bind.bind, Except.bind, Pure.pure,
      Except.pure]

/-- Decoding inverts encoding for an `Optional[Dict[str, str]]` field. -/
theorem optStrMapV_rt (o : Option (List (String × String))) (k : String) :
    optStrMapV (some (encOptStrMap o)) k = .ok o := by
  cases o with
  | none => rfl
  | some fs => simp [optStrMapV, encOptStrMap, mapExcept_strEntry_rt, Except.map]

/-- Entry-wise decoding inverts entry-wise encoding of a
`Dict[str, List[str]]`. -/
theorem mapExcept_strListEntry_rt (k : String) (fs : List (String × List String)) :
    mapExcept (strListEntry k) (fs.map (fun p => (p.1, encStrList p.2))) = .ok fs := by
  induction fs with
  | nil => rfl
  | cons x xs ih =>
    obtain ⟨a, b⟩ := x
    have hx : strListEntry k (a, encStrList b) = .ok (a, b) := by
      simp [strListEntry, encStrList, mapExcept_str_rt, Except.map]
    simp [mapExcept, hx, ih, Bind.bind, Except.bind, Pure.pure, Except.pure]

/-- Decoding inverts encoding for an `Optional[Dict[str, List[str]]]` field. -/
theorem optStrListMapV_rt (o : Option (List (String × List String))) (k : String) :
    optStrListMapV (some (encOptStrListMap o)) k = .ok o := by
  cases o with
  | none => rfl
  | some fs => simp [optStrListMapV, encOptStrListMap, mapExcept_strListEntry_rt, Except.map]

/-- Decoding inverts encoding for a `Union[str, int, bool]` value. -/
theorem sibVal_rt (k : String) (v : SIB) : sibVal k (encSIB v) = .ok v := by
  cases v <;> rfl

/-- Entry-wise decoding inverts entry-wise encoding of a
`Dict[str, Union[str, int, bool]]`. -/
theorem mapExcept_sib_rt (k : String) (fs : List (String × SIB)) :
    mapExcept (sibEntry k) (fs.map (fun p => (p.1, encSIB p.2))) = .ok fs := by
  induction fs with
  | nil => rfl
  | cons x xs ih =>
    obtain ⟨a, b⟩ := x
    simp [mapExcept, sibEntry, sibVal_rt, ih, Bind.bind, Except.bind,
      Pure.pure, Except.pure]

/-- Decoding inverts encoding for a `Dict[str, Union[str, int, bool]]`
field. -/
theorem reqSIBMapV_rt (fs : List (String × SIB)) (k : String) :
    reqSIBMapV (some (encSIBMap fs)) k = .ok fs := by
  simp [reqSIBMapV, encSIBMap, mapExcept_sib_rt]

/-- Decoding inverts encoding for a required `datetime` field. -/
theorem reqDateTimeV_rt (dt : DateTime) (k : String) :
    reqDateTimeV (some (encDateTime dt)) k = .ok dt := by
  simp [reqDateTimeV, encDateTime, dt.2]

/-- Decoding inverts encoding for an `Optional[datetime]` field. -/
theorem optDateTimeV_rt (o : Option DateTime) (k : String) :
    optDateTimeV (some (encOptDateTime o)) k = .ok o := by
  cases o with
  | none => rfl
  | some dt => simp [optDateTimeV, encOptDateTime, encDateTime, dt.2]

/-- Decoding inverts encoding for a validated `Optional[datetime]` field
(the `empty_str_to_none` validator leaves every encoded value unchanged,
since a valid datetime string is nonempty). -/
theorem optDateTimeEmptyV_rt (o : Option DateTime) (k : String) :
    optDateTimeEmptyV (some (encOptDateTime o)) k = .ok o := by
  cases o with
  | none => rfl
  | some dt =>
    simp [optDateTimeEmptyV, encOptDateTime, encDateTime, emptyStrToNone,
      dtValid_not_empty dt.2, optDateTimeV, dt.2]

/-- `Device` encode/decode round-trip. -/
theorem Device_roundtrip (d : Device) : Device.decode (Device.encode d) = .ok d := by
  simp [Device.decode, Device.encode, List.lookup, reqStrV_rt, reqBoolV_rt,
    reqStrListV_rt, optIntListV_rt, optBoolV_rt, optObjV_rt, optStrV_rt,
    optDateTimeEmptyV_rt, optStrListV_rt, Bind.bind, Except.bind, Pure.pure,
    Except.pure]

/-- `User` encode/decode round-trip. -/
theorem User_roundtrip (u : User) : User.decode (User.encode u) = .ok u := by
  simp [User.decode, User.encode, List.lookup, reqStrV_rt, optStrV_rt,
    optDateTimeEmptyV_rt, optIntV_rt, optBoolV_rt, Bind.bind, Except.bind,
    Pure.pure, Except.pure]

/-- `ACL` encode/decode round-trip. -/
theorem ACL_roundtrip (a : ACL) : ACL.decode (ACL.encode a) = .ok a := by
  simp [ACL.decode, ACL.encode, List.lookup, optObjListDV_rt, optObjListV_rt,
    optStrListMapV_rt, optStrMapV_rt, Bind.bind, Except.bind, Pure.pure,
    Except.pure]

/-- `DNSConfig` encode/decode round-trip. -/
theorem DNSConfig_roundtrip (x : DNSConfig) :
    DNSConfig.decode (DNSConfig.encode x) = .ok x := by
  simp [DNSConfig.decode, DNSConfig.encode, List.lookup, optStrListDV_rt,
    reqBoolV_rt, optBoolV_rt, optStrListMapV_rt, Bind.bind, Except.bind,
    Pure.pure, Except.pure]

/-- `DeviceRoutes` encode/decode round-trip. -/
theorem DeviceRoutes_roundtrip (x : DeviceRoutes) :
    DeviceRoutes.decode (DeviceRoutes.encode x) = .ok x := by
  simp [DeviceRoutes.decode, DeviceRoutes.encode, List.lookup, reqStrListV_rt,
    Bind.bind, Except.bind, Pure.pure, Except.pure]

/-- `DevicePostureAttributes` encode/decode round-trip. -/
theorem DevicePostureAttributes_roundtrip (x : DevicePostureAttributes) :
    DevicePostureAttributes.decode (DevicePostureAttributes.encode x) = .ok x := by
  simp [DevicePostureAttributes.decode, DevicePostureAttributes.encode,
    List.lookup, reqSIBMapV_rt, Bind.bind, Except.bind, Pure.pure, Except.pure]

/-- `DeviceInvite` encode/decode round-trip. -/
theorem DeviceInvite_roundtrip (x : DeviceInvite) :
    DeviceInvite.decode (DeviceInvite.encode x) = .ok x := by
  simp [DeviceInvite.decode, DeviceInvite.encode, List.lookup, reqStrV_rt,
    reqDateTimeV_rt, optStrV_rt, reqBoolV_rt, optDateTimeV_rt, Bind.bind,
    Except.bind, Pure.pure, Except.pure]

/-- `UserInvite` encode/decode round-trip. -/
theorem UserInvite_roundtrip (x : UserInvite) :
    UserInvite.decode (UserInvite.encode x) = .ok x := by
  simp [UserInvite.decode, UserInvite.encode, List.lookup, reqStrV_rt,
    reqDateTimeV_rt, reqBoolV_rt, optDateTimeV_rt, Bind.bind, Except.bind,
    Pure.pure, Except.pure]

/-- `ApiKey` encode/decode round-trip. -/
theorem ApiKey_roundtrip (x : ApiKey) : ApiKey.decode (ApiKey.encode x) = .ok x := by
  simp [ApiKey.decode, ApiKey.encode, List.lookup, reqStrV_rt, optStrV_rt,
    reqObjV_rt, reqDateTimeV_rt, optDateTimeV_rt, Bind.bind, Except.bind,
    Pure.pure, Except.pure]

/-- `AuthKey` encode/decode round-trip. -/
theorem AuthKey_roundtrip (x : AuthKey) : AuthKey.decode (AuthKey.encode x) = .ok x := by
  simp [AuthKey.decode, AuthKey.encode, List.lookup, reqStrV_rt, optStrV_rt,
    reqObjV_rt, reqDateTimeV_rt, optDateTimeV_rt, Bind.bind, Except.bind,
    Pure.pure, Except.pure]

/-- `LogEntry` encode/decode round-trip. -/
theorem LogEntry_roundtrip (x : LogEntry) :
    LogEntry.decode (LogEntry.encode x) = .ok x := by
  simp [LogEntry.decode, LogEntry.encode, List.lookup, reqDateTimeV_rt,
    reqStrV_rt, optObjV_rt, Bind.bind, Except.bind, Pure.pure, Except.pure]

/-- `ContactPreference` encode/decode round-trip. -/
theorem ContactPreference_roundtrip (x : ContactPreference) :
    ContactPreference.decode (ContactPreference.encode x) = .ok x := by
  simp [ContactPreference.decode, ContactPreference.encode, List.lookup,
    optStrV_rt, Bind.bind, Except.bind, Pure.pure, Except.pure]

/-- `Webhook` encode/decode round-trip. -/
theorem Webhook_roundtrip (x : Webhook) : Webhook.decode (Webhook.encode x) = .ok x := by
  simp [Webhook.decode, Webhook.encode, List.lookup, reqStrV_rt,
    reqStrListV_rt, reqDateTimeV_rt, optDateTimeV_rt, optStrV_rt, Bind.bind,
    Except.bind, Pure.pure, Except.pure]

/-- `TailnetSettings` encode/decode round-trip. -/
theorem TailnetSettings_roundtrip (x : TailnetSettings) :
    TailnetSettings.decode (TailnetSettings.encode x) = .ok x := by
  simp [TailnetSettings.decode, TailnetSettings.encode, List.lookup,
    optBoolV_rt, optIntV_rt, Bind.bind, Except.bind, Pure.pure, Except.pure]

/-- `PostureIntegration` encode/decode round-trip. -/
theorem PostureIntegration_roundtrip (x : PostureIntegration) :
    PostureIntegration.decode (PostureIntegration.encode x) = .ok x := by
  simp [PostureIntegration.decode, PostureIntegration.encode, List.lookup,
    reqStrV_rt, reqDateTimeV_rt, reqObjV_rt, Bind.bind, Except.bind,
    Pure.pure, Except.pure]

/-- C7: for every modeled entity type, encoding a typed entity back to its
declared wire names and decoding it again reproduces the same typed value;
and per field the wire-name/typed-name rename is a deterministic bijection —
in every model's declared table both the typed names and the wire names are
duplicate-free, and each field round-trips through the rename. -/
theorem spec_c7 :
    ((∀ x : Device, Device.decode (Device.encode x) = .ok x) ∧
     (∀ x : User, User.decode (User.encode x) = .ok x) ∧
     (∀ x : ACL, ACL.decode (ACL.encode x) = .ok x) ∧
     (∀ x : DNSConfig, DNSConfig.decode (DNSConfig.encode x) = .ok x) ∧
     (∀ x : DeviceRoutes, DeviceRoutes.decode (DeviceRoutes.encode x) = .ok x) ∧
     (∀ x : DevicePostureAttributes,
        DevicePostureAttributes.decode (DevicePostureAttributes.encode x) = .ok x) ∧
     (∀ x : DeviceInvite, DeviceInvite.decode (DeviceInvite.encode x) = .ok x) ∧
     (∀ x : UserInvite, UserInvite.decode (UserInvite.encode x) = .ok x) ∧
     (∀ x : ApiKey, ApiKey.decode (ApiKey.encode x) = .ok x) ∧
     (∀ x : AuthKey, AuthKey.decode (AuthKey.encode x) = .ok x) ∧
     (∀ x : LogEntry, LogEntry.decode (LogEntry.encode x) = .ok x) ∧
     (∀ x : ContactPreference,
        ContactPreference.decode (ContactPreference.encode x) = .ok x) ∧
     (∀ x : Webhook, Webhook.decode (Webhook.encode x) = .ok x) ∧
     (∀ x : TailnetSettings,
        TailnetSettings.decode (TailnetSettings.encode x) = .ok x) ∧
     (∀ x : PostureIntegration,
        PostureIntegration.decode (PostureIntegration.encode x) = .ok x)) ∧
    (∀ t ∈ allAliasTables,
      (t.map Prod.fst).Nodup ∧ (t.map Prod.snd).Nodup) ∧
    (∀ t ∈ allAliasTables, ∀ p ∈ t,
      wireOf t p.1 = some p.2 ∧ fieldOf t p.2 = some p.1) := by
  refine ⟨⟨Device_roundtrip, User_roundtrip, ACL_roundtrip,
    DNSConfig_roundtrip, DeviceRoutes_roundtrip,
    DevicePostureAttributes_roundtrip, DeviceInvite_roundtrip,
    UserInvite_roundtrip, ApiKey_roundtrip, AuthKey_roundtrip,
    LogEntry_roundtrip, ContactPreference_roundtrip, Webhook_roundtrip,
    TailnetSettings_roundtrip, PostureIntegration_roundtrip⟩, ?_, ?_⟩
  · decide
  · decide

/-- C7 witness: the `Device` table's names are duplicate-free in both
directions, and its `last_seen` field round-trips through the rename. -/
theorem spec_c7_witness :
    ((deviceAliases.map Prod.fst).Nodup ∧ (deviceAliases.map Prod.snd).Nodup) ∧
    (wireOf deviceAliases "last_seen" = some "lastSeen" ∧
     fieldOf deviceAliases "lastSeen" = some "last_seen") :=
  ⟨spec_c7.2.1 deviceAliases (by unfold allAliasTables; exact List.mem_cons_self _ _),
   spec_c7.2.2 deviceAliases (by unfold allAliasTables; exact List.mem_cons_self _ _)
     ("last_seen", "lastSeen") (by decide)⟩

/-- C1 witness: the amended claim at a concrete client and the empty
response mapping — `list_user_invites` maps the "no content" sentinel to an
empty sequence. -/
theorem spec_c1_witness :
    ((TailscaleClient.make "k").list_user_invites
        (fun _ => NetResult.response ⟨200, false, none⟩)).1 =
      .ok (some (Json.arr [])) :=
  (spec_c1 (TailscaleClient.make "k") "d" [] rfl rfl rfl rfl rfl rfl rfl).2.1
